import Mathlib

/-!
Verification of the Breakfast Klub bet-ledger core behaviours against the
TypeScript source: the net-unit computation (`AppShell.tsx`), the bet save
validation (`bets/page.tsx`), the AI provider router (`lib/ai/router.ts`),
and the slip-grading leg matcher with its commit gate
(`app/api/slips/grade/route.ts`).

JS numbers are modelled as exact rationals (`ℚ`); JS strings as Lean
`String`s, with the string helpers (`trim`, `toUpperCase`, `toLowerCase`,
`split`) re-implemented over `List Char` by structural recursion so that
concrete evaluations reduce in the kernel.
-/

/-- JS `String.prototype.trim()` restricted to the characters that occur in
this code base: drop whitespace from both ends. -/
def jsTrim (s : String) : String :=
  String.mk (((s.data.dropWhile Char.isWhitespace).reverse.dropWhile Char.isWhitespace).reverse)

/-- JS `String.prototype.toUpperCase()` (ASCII). -/
def jsUpper (s : String) : String :=
  String.mk (s.data.map Char.toUpper)

/-- JS `String.prototype.toLowerCase()` (ASCII). -/
def jsLower (s : String) : String :=
  String.mk (s.data.map Char.toLower)

/-- Is `needle` a prefix of the second list? (char-level helper for JS
`String.prototype.includes`). -/
def isPrefOf : List Char → List Char → Bool
  | [], _ => true
  | _ :: _, [] => false
  | a :: as, b :: bs => a = b && isPrefOf as bs

/-- Does the second list contain `needle` as a contiguous sublist? -/
def containsSub (needle : List Char) : List Char → Bool
  | [] => isPrefOf needle []
  | c :: rest => isPrefOf needle (c :: rest) || containsSub needle rest

/-- JS `hay.includes(needle)`. -/
def jsIncludes (hay needle : String) : Bool :=
  containsSub needle.data hay.data

namespace AppShell

/-- A JS value stored in a numeric bet field (`number | string | null` in
`AppShell.tsx`). A string carries its finite numeric parse when it has one
(`some q` iff `Number(s)` is the finite number `q`); a number is either a
finite rational or non-finite (`NaN`/`±Infinity`). -/
inductive NumLike where
  | num (q : ℚ)
  | numNaN
  | str (p : Option ℚ)
  | null
  deriving DecidableEq

/-- `toNumber(v, fallback)` from `AppShell.tsx`: coerce to a finite number,
falling back when the coercion is not finite. `Number(String(null ?? ""))`
is `0`, hence the `null` case. -/
def toNumber (v : NumLike) (fallback : ℚ) : ℚ :=
  match v with
  | .num q => q
  | .numNaN => fallback
  | .str (some q) => q
  | .str none => fallback
  | .null => 0

/-- The `BetRow` record of `AppShell.tsx` (fields used by `netUnits`;
`status` and `result` are arbitrary strings in the row type). -/
structure BetRow where
  id : String
  date : String
  capper : String
  league : String
  market : String
  play : String
  odds : NumLike
  units : NumLike
  opponent : Option String
  final_score : Option String
  result : String
  status : String
  notes : Option String
  deriving DecidableEq

/-- `profitIfWinUnits` from `AppShell.tsx`. The source's `Number.isFinite`
guards are vacuous over `ℚ` (non-finite inputs are already clamped to the
fallback by `toNumber`). -/
def profitIfWinUnits (odds units : ℚ) : ℚ :=
  if odds = 0 then 0
  else if units ≤ 0 then 0
  else if 0 < odds then units * (odds / 100)
  else units * (100 / |odds|)

/-- `netUnits` from `AppShell.tsx`: the net unit return of a bet, computed
on read from `status`, `result`, `odds` and `units` only. -/
def netUnits (b : BetRow) : ℚ :=
  if jsUpper b.status ≠ "FINAL" then 0
  else
    let odds := toNumber b.odds 0
    let units := toNumber b.units 0
    if jsUpper b.result = "WIN" then profitIfWinUnits odds units
    else if jsUpper b.result = "LOSS" then -units
    else if jsUpper b.result = "PUSH" ∨ jsUpper b.result = "VOID" then 0
    else 0

end AppShell

namespace BetsPage

/-- A successful league resolution returned by `resolveLeagues` in
`bets/page.tsx` (network lookup, abstracted). -/
structure LeagueResolution where
  sport_key : String
  league_key : String
  league_abbrev : Option String
  league_name : String
  deriving DecidableEq

/-- The form state feeding `save()` in `bets/page.tsx` (all text inputs). -/
structure SaveForm where
  date : String
  capper : String
  league : String
  market : String
  play : String
  odds : String
  units : String
  opponent : String
  finalScore : String
  status : String
  result : String
  notes : String
  deriving DecidableEq

/-- The row payload `save()` hands to the database. For the numeric fields,
`none` in the outer option means the form field was blank (stored `null`);
the inner `Option ℚ` is the JS `Number(·)` parse (`none` = `NaN`). -/
structure SavePayload where
  date : String
  capper : String
  league : String
  market : String
  play : String
  odds : Option (Option ℚ)
  units : Option ℚ
  opponent : Option String
  final_score : Option String
  status : String
  result : String
  notes : Option String
  sport_key : String
  league_key : String
  league_abbrev : Option String
  league_name : String
  deriving DecidableEq

/-- The `save()` handler of `bets/page.tsx` as a pure function: the result
is either the row that would be written (insert when `editingId` is absent,
update otherwise) or the user-facing error message shown instead of any
write. `parseNum` abstracts the JS `Number(·)` coercion (`none` = `NaN`);
`resolved` abstracts the `resolveLeagues` lookup outcome. -/
def save (parseNum : String → Option ℚ) (editingId : Option String)
    (f : SaveForm) (resolved : Option LeagueResolution) :
    Except String SavePayload :=
  if f.date = "" ∨ jsTrim f.capper = "" ∨ jsTrim f.league = "" ∨
      jsTrim f.market = "" ∨ jsTrim f.play = "" then
    .error "Missing required fields: date, capper, league, market, play."
  else
    match resolved with
    | none =>
        .error ("League \"" ++ f.league ++ "\" is not standardized yet. Go to Settings → Leagues and register it (paste ESPN scoreboard URL + aliases).")
    | some r =>
        if f.status = "FINAL" ∧ f.result = "OPEN" then
          .error "If Status is FINAL, Result must be WIN/LOSS/PUSH/VOID/CASHOUT."
        else
          let base : SavePayload :=
            { date := f.date
              capper := jsTrim f.capper
              league := (match r.league_abbrev with
                         | some a => a
                         | none => jsTrim f.league)
              market := jsTrim f.market
              play := jsTrim f.play
              odds := if jsTrim f.odds ≠ "" then some (parseNum f.odds) else none
              units := if jsTrim f.units ≠ "" then parseNum f.units else some 1
              opponent := if jsTrim f.opponent ≠ "" then some (jsTrim f.opponent) else none
              final_score := if jsTrim f.finalScore ≠ "" then some (jsTrim f.finalScore) else none
              status := f.status
              result := f.result
              notes := if jsTrim f.notes ≠ "" then some (jsTrim f.notes) else none
              sport_key := r.sport_key
              league_key := r.league_key
              league_abbrev := r.league_abbrev
              league_name := r.league_name }
          match editingId with
          | some _ => .ok base
          | none => .ok { base with status := "OPEN", result := "OPEN" }

end BetsPage

namespace Router

/-- Provider credentials/model config (`OpenAICompatConfig` in
`lib/ai/openaiCompat.ts`). -/
structure OpenAICompatConfig where
  baseUrl : String
  apiKey : String
  model : String
  deriving DecidableEq

/-- The four provider slots of `lib/ai/router.ts`. -/
inductive ProviderName where
  | groq
  | cerebras
  | mistral
  | hf
  deriving DecidableEq

/-- The provider's name as it appears in aggregated error messages. -/
def provName : ProviderName → String
  | .groq => "groq"
  | .cerebras => "cerebras"
  | .mistral => "mistral"
  | .hf => "hf"

/-- Per-call options (`temperature`, `max_tokens`). -/
structure CallOpts where
  temperature : ℚ
  max_tokens : ℕ
  deriving DecidableEq

/-- Outcome of one `chatCompletion` network call, abstracted as a function
of the provider config and options: the response text, or the thrown
error's message. The `messages` argument is fixed for one router
invocation and therefore omitted. -/
abbrev CallFn := OpenAICompatConfig → CallOpts → Except String String

/-- `getProviderConfigs()` outcome: each provider slot is configured
(`some`) or skipped (`none`, missing key/model in the environment). -/
structure ProviderConfigMap where
  groq : Option OpenAICompatConfig
  cerebras : Option OpenAICompatConfig
  mistral : Option OpenAICompatConfig
  hf : Option OpenAICompatConfig
  deriving DecidableEq

/-- The error thrown by `tryInOrder` when no provider was configured. -/
def noProvidersMsg : String :=
  "No text AI providers configured. Add one or more of: GROQ_API_KEY, CEREBRAS_API_KEY, MISTRAL_API_KEY (+ non-vision MISTRAL_MODEL), HF_TOKEN + HF_MODEL"

/-- The aggregated error thrown by `tryInOrder` when every configured
provider failed: `tried` holds one `"name: reason"` entry per attempt. -/
def allFailedMsg (tried : List String) : String :=
  "All providers failed. " ++ String.intercalate " | " tried

/-- The loop body of `tryInOrder` from `lib/ai/router.ts`, with the
accumulated `tried` failure list made explicit. -/
def tryInOrderAux (call : CallFn) (opts : CallOpts) :
    List (ProviderName × Option OpenAICompatConfig) → List String → Except String String
  | [], tried => .error (if tried.isEmpty then noProvidersMsg else allFailedMsg tried)
  | (_, none) :: rest, tried => tryInOrderAux call opts rest tried
  | (n, some cfg) :: rest, tried =>
      match call cfg opts with
      | .ok text => .ok text
      | .error e => tryInOrderAux call opts rest (tried ++ [provName n ++ ": " ++ e])

/-- `tryInOrder(order, messages, opts)` from `lib/ai/router.ts`. -/
def tryInOrder (order : List (ProviderName × Option OpenAICompatConfig))
    (call : CallFn) (opts : CallOpts) : Except String String :=
  tryInOrderAux call opts order []

/-- The provider priority order used by `runPrimary` (identical for the
`fast` and `balanced` strategies). -/
def primaryOrder (cfgs : ProviderConfigMap) : List (ProviderName × Option OpenAICompatConfig) :=
  [(.groq, cfgs.groq), (.cerebras, cfgs.cerebras), (.mistral, cfgs.mistral), (.hf, cfgs.hf)]

/-- `Strategy` from `lib/ai/router.ts`. -/
inductive Strategy where
  | fast
  | balanced
  | consensus
  deriving DecidableEq

/-- The call options `runPrimary` passes for each strategy. -/
def primaryOpts (strategy : Strategy) : CallOpts :=
  if strategy = .fast then ⟨0.2, 900⟩ else ⟨0.2, 1000⟩

/-- `runPrimary(strategy, messages)` from `lib/ai/router.ts`. -/
def runPrimary (strategy : Strategy) (cfgs : ProviderConfigMap) (call : CallFn) :
    Except String String :=
  if strategy = .fast then
    tryInOrder (primaryOrder cfgs) call ⟨0.2, 900⟩
  else
    tryInOrder (primaryOrder cfgs) call ⟨0.2, 1000⟩

/-- The call options used throughout `runConsensus`. -/
def consensusOpts : CallOpts := ⟨0.2, 900⟩

/-- The configured candidates of `runConsensus`, in priority order. -/
def consensusCandidates (cfgs : ProviderConfigMap) :
    List (ProviderName × OpenAICompatConfig) :=
  ([(.groq, cfgs.groq), (.cerebras, cfgs.cerebras), (.mistral, cfgs.mistral), (.hf, cfgs.hf)]
      : List (ProviderName × Option OpenAICompatConfig)).filterMap
    (fun x => x.2.map (fun c => (x.1, c)))

/-- The sequential `for`-loop over the remaining providers in the
one-success branch of `runConsensus`: first successful response, if any. -/
def firstSuccess (call : CallFn) (opts : CallOpts) :
    List (ProviderName × OpenAICompatConfig) → Option String
  | [] => none
  | (_, c) :: rest =>
      match call c opts with
      | .ok t => some t
      | .error _ => firstSuccess call opts rest

/-- The error thrown by `runConsensus` when nothing is configured. -/
def noConsensusMsg : String :=
  "No providers configured for consensus. Add GROQ_API_KEY and/or CEREBRAS_API_KEY (recommended)."

/-- `runConsensus(messages)` from `lib/ai/router.ts`: the two leading
configured providers are attempted (in parallel in the source; the
abstraction by a deterministic `call` function makes the parallel join a
pair of calls), then the settled results are branched on exactly as in the
source. -/
def runConsensus (cfgs : ProviderConfigMap) (call : CallFn) :
    Except String (String × Option String) :=
  let candidates := consensusCandidates cfgs
  if candidates.isEmpty then .error noConsensusMsg
  else
    let firstTwo := candidates.take 2
    let settled := firstTwo.map (fun p => call p.2 consensusOpts)
    match settled.filterMap Except.toOption with
    | t1 :: t2 :: _ => .ok (t1, some t2)
    | [t1] =>
        (match firstSuccess call consensusOpts (candidates.drop 2) with
         | some second => .ok (t1, some second)
         | none => .ok (t1, none))
    | [] =>
        match tryInOrder (candidates.map (fun p => (p.1, some p.2))) call consensusOpts with
        | .ok t => .ok (t, none)
        | .error e => .error e

end Router

namespace Grade

/-- Is `c` kept by the normalisation regex `[^a-z0-9]` of
`app/api/slips/grade/route.ts` (applied after lower-casing)? -/
def jsKeepChar (c : Char) : Bool :=
  ('a' ≤ c && c ≤ 'z') || ('0' ≤ c && c ≤ '9')

/-- Collapse runs of consecutive spaces to a single space (together with
the char-to-space map below this realises `replace(/[^a-z0-9]+/g, " ")`). -/
def collapseSpaces : List Char → List Char
  | [] => []
  | [c] => [c]
  | a :: b :: rest =>
      if a = ' ' && b = ' ' then collapseSpaces (b :: rest)
      else a :: collapseSpaces (b :: rest)

/-- Drop spaces from both ends (the final `.trim()` of `norm`; its input
contains only lower-case alphanumerics and single spaces). -/
def trimSp (l : List Char) : List Char :=
  ((l.dropWhile (· = ' ')).reverse.dropWhile (· = ' ')).reverse

/-- `norm(s)` from `app/api/slips/grade/route.ts`: lower-case, replace
maximal runs of non-alphanumerics by one space, trim. -/
def norm (s : String) : String :=
  String.mk (trimSp (collapseSpaces ((s.data.map Char.toLower).map
    (fun c => if jsKeepChar c then c else ' '))))

/-- JS `split(" ")` over a char list. -/
def splitSp : List Char → List (List Char)
  | [] => [[]]
  | c :: rest =>
      if c = ' ' then [] :: splitSp rest
      else
        match splitSp rest with
        | t :: ts => (c :: t) :: ts
        | [] => [[c]]

/-- `tokenSet(s)` from `app/api/slips/grade/route.ts`: the set of
normalised tokens of length at least 2. -/
def tokenSet (s : String) : Finset String :=
  (((splitSp (norm s).data).filter (fun t => 2 ≤ t.length)).map String.mk).toFinset

/-- `overlapScore(a, b)` from `app/api/slips/grade/route.ts`: shared-token
count over the larger token-set size; `0` when either set is empty. -/
def overlapScore (a b : String) : ℚ :=
  let A := tokenSet a
  let B := tokenSet b
  if A.card = 0 ∨ B.card = 0 then 0
  else ((A ∩ B).card : ℚ) / ((max A.card B.card : ℕ) : ℚ)

/-- `normalizeStatus` from `app/api/slips/grade/route.ts`. -/
def normalizeStatus (v : Option String) : String :=
  if jsUpper (v.getD "") = "FINAL" then "FINAL" else "OPEN"

/-- The recognised non-`OPEN` results. -/
def resultWords : List String := ["WIN", "LOSS", "PUSH", "VOID", "CASHOUT"]

/-- `normalizeResult` from `app/api/slips/grade/route.ts`. -/
def normalizeResult (v : Option String) : String :=
  let s := jsUpper (v.getD "")
  if s ∈ resultWords then s else "OPEN"

/-- The `ExtractedTicket` record (evidence flags flattened; absent
evidence reads as `false` via optional chaining in the source). -/
structure ExtractedTicket where
  ticket_status : Option String
  ticket_result : Option String
  book : Option String
  slip_ref : Option String
  paid_amount : Option ℚ
  final_score_visible : Bool
  won_tag : Bool
  lost_tag : Bool
  confetti : Bool
  paid_amount_shown : Bool
  final_score_shown : Bool
  notes : Option String
  deriving DecidableEq

/-- The `ExtractedLeg` record (fields not read by `buildProposals` —
`line`, `odds`, `player_name`, `team_name` — are omitted). -/
structure ExtractedLeg where
  leg_index : Option ℤ
  total_legs : Option ℤ
  parlay : Bool
  market : Option String
  play : Option String
  selection : Option String
  opponent : Option String
  result : Option String
  final_score : Option String
  confidence : Option ℚ
  deriving DecidableEq

/-- The `ExtractedGrade` record. -/
structure ExtractedGrade where
  ticket : ExtractedTicket
  bets : List ExtractedLeg
  issues : List String
  deriving DecidableEq

/-- The `BetRow` record of `app/api/slips/grade/route.ts` (plus the
`selection` field the source reads through an `any` cast). -/
structure BetRow where
  id : String
  date : String
  capper : String
  league : String
  market : String
  play : String
  selection : Option String
  odds : Option ℚ
  units : Option ℚ
  opponent : Option String
  final_score : Option String
  status : String
  result : String
  notes : Option String
  book : Option String
  slip_ref : Option String
  deriving DecidableEq

/-- The caller-supplied hints (`slipRefHint`, `bookHint`). -/
structure GradeOpts where
  slipRefHint : Option String
  bookHint : Option String
  deriving DecidableEq

/-- JS `a || b || ""` over optional strings (empty string is falsy). -/
def jsOrEmpty (a b : Option String) : String :=
  let x := a.getD ""
  if x ≠ "" then x else b.getD ""

/-- The slip reference used by `buildProposals`:
`(opts.slipRefHint || extracted.ticket.slip_ref || "").trim()`. -/
def slipRefOf (ex : ExtractedGrade) (opts : GradeOpts) : String :=
  jsTrim (jsOrEmpty opts.slipRefHint ex.ticket.slip_ref)

/-- The book hint used by `buildProposals`:
`(opts.bookHint || extracted.ticket.book || "").trim().toLowerCase()`. -/
def bookHintOf (ex : ExtractedGrade) (opts : GradeOpts) : String :=
  jsLower (jsTrim (jsOrEmpty opts.bookHint ex.ticket.book))

/-- Row filter for the slip-reference narrowing:
`String(b?.slip_ref ?? "").trim() === slipRef`. -/
def slipRefMatches (ref : String) (b : BetRow) : Bool :=
  jsTrim (b.slip_ref.getD "") == ref

/-- Row filter for the book narrowing:
`String(b?.book ?? "").toLowerCase().includes(bookHint)`. -/
def bookMatches (hint : String) (b : BetRow) : Bool :=
  jsIncludes (jsLower (b.book.getD "")) hint

/-- The candidate pool after the slip-reference narrowing (identity when no
reference is present). -/
def slipPool (openBets : List BetRow) (ref : String) : List BetRow :=
  if ref ≠ "" then openBets.filter (slipRefMatches ref) else openBets

/-- The candidate pool `buildProposals` matches against: slip-reference
narrowing, then book narrowing (kept only when non-empty). -/
def candidatesOf (openBets : List BetRow) (ex : ExtractedGrade) (opts : GradeOpts) :
    List BetRow :=
  let base := slipPool openBets (slipRefOf ex opts)
  let hint := bookHintOf ex opts
  if hint ≠ "" then
    (let withBook := base.filter (bookMatches hint)
     if withBook.isEmpty then base else withBook)
  else base

/-- The `before` snapshot of a `GradeProposal`. -/
structure ProposalBefore where
  status : String
  result : String
  final_score : Option String
  notes : Option String
  deriving DecidableEq

/-- The `after` update of a `GradeProposal`. -/
structure ProposalAfter where
  status : String
  result : String
  final_score : Option String
  notes_append : Option String
  deriving DecidableEq

/-- The `GradeProposal` record of `app/api/slips/grade/route.ts`. -/
structure GradeProposal where
  bet_id : String
  match_reason : String
  confidence : ℚ
  before : ProposalBefore
  after : ProposalAfter
  deriving DecidableEq

/-- The `{ proposals, issues, matchedCount }` result of `buildProposals`. -/
structure BuildResult where
  proposals : List GradeProposal
  issues : List String
  matchedCount : ℕ
  deriving DecidableEq

/-- The settled-slip score text:
`extracted.bets.find((x) => x.final_score)?.final_score || (final_score_visible ? ... : null)`. -/
def scoreTextOf (ex : ExtractedGrade) : Option String :=
  match ex.bets.find? (fun x => x.final_score.getD "" != "") with
  | some l => l.final_score
  | none =>
      if ex.ticket.final_score_visible then some "Final shown on settled slip" else none

/-- The note fragments of a ticket-level settlement proposal. (JS number
rendering of `paid_amount` is abstracted by `toString`.) -/
def ticketNoteParts (ex : ExtractedGrade) (ticketResult : String) : List String :=
  ["[AI Grade / settled slip]", "ticket=" ++ ticketResult]
    ++ (if ex.ticket.confetti then ["confetti"] else [])
    ++ (if ex.ticket.won_tag then ["WON tag"] else [])
    ++ (if ex.ticket.lost_tag then ["LOST tag"] else [])
    ++ (if ex.ticket.paid_amount_shown then ["paid shown"] else [])
    ++ (match ex.ticket.paid_amount with
        | some q => ["paid=" ++ toString q]
        | none => [])

/-- One ticket-level settlement proposal for candidate row `b`. -/
def ticketProposal (slipRef ticketResult : String) (scoreText : Option String)
    (noteStr : String) (b : BetRow) : GradeProposal :=
  { bet_id := b.id
    match_reason :=
      if slipRef ≠ "" then "Matched by slip_ref " ++ slipRef else "Slip-level fuzzy match"
    confidence := if slipRef ≠ "" then 0.99 else 0.7
    before :=
      { status := b.status, result := b.result, final_score := b.final_score, notes := b.notes }
    after :=
      { status := "FINAL"
        result := ticketResult
        final_score := (match scoreText with
                        | some s => some s
                        | none => b.final_score)
        notes_append := some noteStr } }

/-- The combined text of an extracted leg:
`` `${leg.play || ""} ${leg.selection || ""} ${leg.market || ""} ${leg.opponent || ""}` ``. -/
def legCombined (leg : ExtractedLeg) : String :=
  leg.play.getD "" ++ " " ++ leg.selection.getD "" ++ " " ++ leg.market.getD "" ++ " " ++
    leg.opponent.getD ""

/-- The combined text of a candidate row:
`` `${b.play || ""} ${b.market || ""} ${b.selection || ""} ${b.opponent || ""}` ``. -/
def betCombined (b : BetRow) : String :=
  b.play ++ " " ++ b.market ++ " " ++ b.selection.getD "" ++ " " ++ b.opponent.getD ""

/-- The blended match score of a leg against a candidate row:
`s1 * 0.65 + s2 * 0.2 + s3 * 0.15`. -/
def legScore (leg : ExtractedLeg) (b : BetRow) : ℚ :=
  let s1 := overlapScore (legCombined leg) (betCombined b)
  let s2 := overlapScore (leg.opponent.getD "") (b.opponent.getD "")
  let s3 := overlapScore (leg.market.getD "") (b.market)
  s1 * 0.65 + s2 * 0.2 + s3 * 0.15

/-- The best-candidate loop of the leg matcher
(`if (!best || score > best.score) best = { bet: b, score }`), with the
running best made explicit. -/
def pickBestAux (f : BetRow → ℚ) : Option (BetRow × ℚ) → List BetRow → Option (BetRow × ℚ)
  | best, [] => best
  | best, b :: rest =>
      pickBestAux f
        (match best with
         | none => some (b, f b)
         | some (b0, s0) => if s0 < f b then some (b, f b) else some (b0, s0))
        rest

/-- The best-scoring candidate for a leg (ties keep the earlier row). -/
def pickBest (f : BetRow → ℚ) (l : List BetRow) : Option (BetRow × ℚ) :=
  pickBestAux f none l

/-- `leg.result ? normalizeResult(leg.result) : "OPEN"`. -/
def legResultOf (leg : ExtractedLeg) : String :=
  match leg.result with
  | some r => if r ≠ "" then normalizeResult (some r) else "OPEN"
  | none => "OPEN"

/-- The name quoted in the unmatched-leg diagnostic:
`leg.play || leg.selection || "unknown"`. -/
def unmatchedLegName (leg : ExtractedLeg) : String :=
  let p := leg.play.getD ""
  if p ≠ "" then p
  else
    let sel := leg.selection.getD ""
    if sel ≠ "" then sel else "unknown"

/-- The unmatched-leg diagnostic message. -/
def unmatchedLegMsg (leg : ExtractedLeg) : String :=
  "Could not confidently match visible leg \"" ++ unmatchedLegName leg ++ "\"."

/-- Two-decimal rendering of a non-negative scaled integer (helper for
`toFixed2`). -/
def twoDec (m : ℕ) : String :=
  toString (m / 100) ++ "." ++
    (if m % 100 < 10 then "0" ++ toString (m % 100) else toString (m % 100))

/-- JS `q.toFixed(2)` for the exact rationals arising here. -/
def toFixed2 (q : ℚ) : String :=
  if q < 0 then "-" ++ twoDec (round (-q * 100)).toNat else twoDec (round (q * 100)).toNat

/-- The note fragments of a visible-leg proposal. -/
def legNoteParts (legResult : String) (leg : ExtractedLeg) : List String :=
  ["[AI Grade / visible leg]", "leg=" ++ legResult]
    ++ (match leg.leg_index with
        | some i => ["leg#" ++ toString i]
        | none => [])
    ++ (match leg.total_legs with
        | some n => ["of " ++ toString n]
        | none => [])

/-- One visible-leg proposal for the best-matching row `b` at `score`
(`confidence: Number(best.score.toFixed(2))`, i.e. the score rounded to
two decimals). -/
def legProposal (leg : ExtractedLeg) (legResult : String) (b : BetRow) (score : ℚ) :
    GradeProposal :=
  { bet_id := b.id
    match_reason := "Fuzzy leg match (" ++ toFixed2 score ++ ")"
    confidence := ((round (score * 100) : ℤ) : ℚ) / 100
    before :=
      { status := b.status, result := b.result, final_score := b.final_score, notes := b.notes }
    after :=
      { status := "FINAL"
        result := legResult
        final_score := (match leg.final_score with
                        | some s => some s
                        | none => b.final_score)
        notes_append := some (String.intercalate " | " (legNoteParts legResult leg)) } }

/-- One iteration of the per-leg matching loop of `buildProposals`,
threading the accumulated `(proposals, issues)`. -/
def legStep (cands : List BetRow) (acc : List GradeProposal × List String)
    (leg : ExtractedLeg) : List GradeProposal × List String :=
  let legResult := legResultOf leg
  if legResult = "OPEN" then acc
  else
    match pickBest (legScore leg) cands with
    | none => (acc.1, acc.2 ++ [unmatchedLegMsg leg])
    | some (b, score) =>
        if score < 0.35 then (acc.1, acc.2 ++ [unmatchedLegMsg leg])
        else (acc.1 ++ [legProposal leg legResult b score], acc.2)

/-- The visible legs: `extracted.bets.filter((x) => x.play || x.selection || x.opponent)`. -/
def visibleLegsOf (ex : ExtractedGrade) : List ExtractedLeg :=
  ex.bets.filter (fun x =>
    x.play.getD "" != "" || x.selection.getD "" != "" || x.opponent.getD "" != "")

/-- Diagnostic pushed when matching must proceed without a slip reference. -/
def noSlipRefIssue : String :=
  "No slip_ref provided/detected. Matching will be fuzzy and review is required."

/-- Diagnostic pushed when no visible legs were extracted. -/
def noVisibleLegsIssue : String :=
  "No visible legs could be extracted from the settled slip."

/-- Diagnostic returned when the slip-reference narrowing matches no row. -/
def noMatchIssue (ref : String) : String :=
  "No OPEN bets found with slip_ref=\"" ++ ref ++ "\"."

/-- `buildProposals(openBets, extracted, opts)` from
`app/api/slips/grade/route.ts`. -/
def buildProposals (openBets : List BetRow) (ex : ExtractedGrade) (opts : GradeOpts) :
    BuildResult :=
  let ticketStatus := normalizeStatus ex.ticket.ticket_status
  let ticketResult := normalizeResult ex.ticket.ticket_result
  let slipRef := slipRefOf ex opts
  if slipRef ≠ "" ∧ (openBets.filter (slipRefMatches slipRef)).isEmpty then
    { proposals := [], issues := [noMatchIssue slipRef], matchedCount := 0 }
  else
    let issues0 : List String := if slipRef ≠ "" then [] else [noSlipRefIssue]
    let cands := candidatesOf openBets ex opts
    if ticketStatus = "FINAL" ∧ ticketResult ≠ "OPEN" ∧ ¬cands.isEmpty then
      let noteStr := String.intercalate " | " (ticketNoteParts ex ticketResult)
      { proposals := cands.map (ticketProposal slipRef ticketResult (scoreTextOf ex) noteStr)
        issues := issues0
        matchedCount := cands.length }
    else
      let legs := visibleLegsOf ex
      if legs.isEmpty then
        { proposals := [], issues := issues0 ++ [noVisibleLegsIssue], matchedCount := 0 }
      else
        let r := legs.foldl (legStep cands) ([], issues0)
        { proposals := r.1, issues := r.2, matchedCount := r.1.length }

/-- A database update issued by the commit loop of the grade route. -/
structure Patch where
  status : String
  result : String
  final_score : Option String
  notes : Option String
  deriving DecidableEq

/-- The merged notes written on commit:
`` `${existingNotes}${noteAppend}`.trim() || null ``. -/
def mergedNotes (existing app : Option String) : Option String :=
  let appStr := if app.getD "" ≠ "" then " " ++ app.getD "" else ""
  let m := jsTrim (existing.getD "" ++ appStr)
  if m = "" then none else some m

/-- The update the commit loop issues for one proposal (`none` when the
proposal's bet id is not among the fetched open bets and the loop skips
it). -/
def toPatch (openBets : List BetRow) (p : GradeProposal) : Option (String × Patch) :=
  match openBets.find? (fun b => b.id == p.bet_id) with
  | none => none
  | some existing =>
      some (p.bet_id,
        { status := p.after.status
          result := p.after.result
          final_score := p.after.final_score
          notes := mergedNotes existing.notes p.after.notes_append })

/-- The outcome of the commit gate of the grade route's `POST` handler:
the mode of the response, the row updates actually issued, and the
blocking reasons surfaced for review. -/
structure GateResult where
  mode : String
  writes : List (String × Patch)
  commit_blocked_reasons : List String
  can_commit : Bool
  deriving DecidableEq

/-- The low-confidence blocking reason. -/
def lowConfMsg (n : ℕ) : String :=
  "Low-confidence matches present (" ++ toString n ++ "). Review before applying."

/-- The no-proposals blocking reason. -/
def noProposalsMsg : String := "No grade proposals generated."

/-- The commit gate of the grade route's `POST` handler (everything after
`buildProposals`): block on an empty proposal list or on any proposal with
confidence below `0.75`; otherwise, in commit mode, issue one update per
proposal whose bet id is among the fetched open bets. -/
def gradeGate (commit : Bool) (openBets : List BetRow) (proposals : List GradeProposal) :
    GateResult :=
  let lowConfidence := proposals.filter (fun p => p.confidence < 0.75)
  let reasons :=
    (if proposals.isEmpty then [noProposalsMsg] else [])
      ++ (if ¬lowConfidence.isEmpty then [lowConfMsg lowConfidence.length] else [])
  if ¬commit ∨ ¬reasons.isEmpty then
    { mode := "preview", writes := [], commit_blocked_reasons := reasons,
      can_commit := reasons.isEmpty }
  else
    { mode := "commit", writes := proposals.filterMap (toPatch openBets),
      commit_blocked_reasons := reasons, can_commit := true }

end Grade

/-- A FINAL/WIN row with positive odds and negative units (representable:
the units form field accepts any numeric text). -/
def c1Bet : AppShell.BetRow :=
  { id := "b1", date := "2026-01-01", capper := "cap", league := "NBA",
    market := "Spread", play := "Lakers -3.5", odds := .num 100,
    units := .num (-1), opponent := none, final_score := none,
    result := "WIN", status := "FINAL", notes := none }

/-- A FINAL/WIN row at odds `+150` for `2` units. -/
def w1Bet : AppShell.BetRow :=
  { id := "b2", date := "2026-01-02", capper := "cap", league := "NBA",
    market := "ML", play := "Celtics ML", odds := .num 150,
    units := .num 2, opponent := none, final_score := none,
    result := "WIN", status := "FINAL", notes := none }

/-- An OPEN row (status not FINAL). -/
def c10Open : AppShell.BetRow :=
  { id := "b3", date := "2026-01-03", capper := "cap", league := "NHL",
    market := "Total", play := "Over 6.5", odds := .num (-110),
    units := .num 1, opponent := none, final_score := none,
    result := "WIN", status := "OPEN", notes := none }

/-- A FINAL/CASHOUT row. -/
def c10Cash : AppShell.BetRow :=
  { id := "b4", date := "2026-01-04", capper := "cap", league := "NFL",
    market := "Spread", play := "Chiefs -3", odds := .num (-110),
    units := .num 1, opponent := none, final_score := none,
    result := "CASHOUT", status := "FINAL", notes := none }

/-- A FINAL/WIN row with zero units. -/
def c10Edge : AppShell.BetRow :=
  { id := "b5", date := "2026-01-05", capper := "cap", league := "MLB",
    market := "ML", play := "Mets ML", odds := .num 100,
    units := .num 0, opponent := none, final_score := none,
    result := "WIN", status := "FINAL", notes := none }

/-- A FINAL/WIN row whose odds field is a non-numeric string. -/
def c10Nan : AppShell.BetRow :=
  { id := "b6", date := "2026-01-06", capper := "cap", league := "MLB",
    market := "ML", play := "Cubs ML", odds := .str none,
    units := .num 2, opponent := none, final_score := none,
    result := "WIN", status := "FINAL", notes := none }

/-- A complete form whose status/result combination violates the
FINAL-implies-settled invariant. -/
def c2Form : BetsPage.SaveForm :=
  { date := "2026-01-07", capper := "Breakfast Klub", league := "NCAAM",
    market := "Spread", play := "Duke -4.5", odds := "-110", units := "1",
    opponent := "", finalScore := "", status := "FINAL", result := "OPEN",
    notes := "" }

/-- A successful league resolution for the witness form. -/
def c2Res : BetsPage.LeagueResolution :=
  { sport_key := "basketball", league_key := "mens-college-basketball",
    league_abbrev := some "NCAAM", league_name := "NCAA Men's Basketball" }

/-- A grade proposal with the given confidence (other fields fixed). -/
def c3Prop (conf : ℚ) : Grade.GradeProposal :=
  { bet_id := "b", match_reason := "m", confidence := conf,
    before := { status := "OPEN", result := "OPEN", final_score := none, notes := none },
    after := { status := "FINAL", result := "WIN", final_score := none, notes_append := none } }

/-- Five proposals of which exactly one has confidence `0.74`. -/
def c3Props : List Grade.GradeProposal :=
  [c3Prop 0.8, c3Prop 0.9, c3Prop 0.99, c3Prop 0.8, c3Prop 0.74]

/-- Configured groq slot for the router witness. -/
def r4Cfg1 : Router.OpenAICompatConfig :=
  { baseUrl := "https://api.groq.com/openai/v1", apiKey := "k1", model := "llama-3.3-70b-versatile" }

/-- Configured cerebras slot for the router witness. -/
def r4Cfg2 : Router.OpenAICompatConfig :=
  { baseUrl := "https://api.cerebras.ai/v1", apiKey := "k2", model := "llama3.1-8b" }

/-- Two configured providers, two skipped. -/
def r4Cfgs : Router.ProviderConfigMap :=
  { groq := some r4Cfg1, cerebras := some r4Cfg2, mistral := none, hf := none }

/-- The first provider fails, the second succeeds with text `"B"`. -/
def r4Call : Router.CallFn :=
  fun c _ => if c = r4Cfg1 then .error "boom" else .ok "B"

/-- Configured groq slot for the consensus scenarios. -/
def r5CfgG : Router.OpenAICompatConfig :=
  { baseUrl := "https://api.groq.com/openai/v1", apiKey := "kg", model := "mg" }

/-- Configured cerebras slot for the consensus scenarios. -/
def r5CfgC : Router.OpenAICompatConfig :=
  { baseUrl := "https://api.cerebras.ai/v1", apiKey := "kc", model := "mc" }

/-- Configured mistral slot for the consensus scenarios. -/
def r5CfgM : Router.OpenAICompatConfig :=
  { baseUrl := "https://api.mistral.ai/v1", apiKey := "km", model := "mm" }

/-- Three configured providers for the consensus scenarios. -/
def r5Cfgs : Router.ProviderConfigMap :=
  { groq := some r5CfgG, cerebras := some r5CfgC, mistral := some r5CfgM, hf := none }

/-- groq fails, cerebras answers `"B"`, mistral answers `"C"`. -/
def r5CallCex : Router.CallFn :=
  fun c _ =>
    if c = r5CfgG then .error "gE" else if c = r5CfgC then .ok "B" else .ok "C"

/-- groq answers `"A"`, cerebras answers `"B"`. -/
def r5CallWit : Router.CallFn :=
  fun c _ => if c = r5CfgG then .ok "A" else .ok "B"

/-- A settled leg whose opponent text has eight tokens. -/
def c6Leg : Grade.ExtractedLeg :=
  { leg_index := none, total_legs := none, parlay := false, market := none,
    play := none, selection := none,
    opponent := some "o1 o2 o3 o4 o5 o6 o7 o8",
    result := some "WIN", final_score := none, confidence := none }

/-- A candidate row scoring exactly `0.35` against `c6Leg`
(`s1 = 1/2`, `s2 = 1/8`, `s3 = 0`). -/
def c6Bet : Grade.BetRow :=
  { id := "cb1", date := "2026-01-08", capper := "cap", league := "NBA",
    market := "", play := "o2 o3 o4", selection := none, odds := none,
    units := none, opponent := some "o1", final_score := none,
    status := "OPEN", result := "OPEN", notes := none, book := none,
    slip_ref := none }

/-- An extraction whose only content is the single visible leg `c6Leg`. -/
def c6Ex : Grade.ExtractedGrade :=
  { ticket :=
      { ticket_status := some "OPEN", ticket_result := some "OPEN", book := none,
        slip_ref := none, paid_amount := none, final_score_visible := false,
        won_tag := false, lost_tag := false, confetti := false,
        paid_amount_shown := false, final_score_shown := false, notes := none }
    bets := [c6Leg]
    issues := [] }

/-- No caller-supplied hints. -/
def c6Opts : Grade.GradeOpts := { slipRefHint := none, bookHint := none }

/-- A settled leg whose play text has thirteen tokens. -/
def w6Leg : Grade.ExtractedLeg :=
  { leg_index := none, total_legs := none, parlay := false, market := none,
    play := some "t01 t02 t03 t04 t05 t06 t07 t08 t09 t10 t11 t12 t13",
    selection := none, opponent := none, result := some "WIN",
    final_score := none, confidence := none }

/-- A candidate row scoring exactly `0.30` against `w6Leg`
(`s1 = 6/13`, `s2 = s3 = 0`). -/
def w6Bet : Grade.BetRow :=
  { id := "wb1", date := "2026-01-09", capper := "cap", league := "NBA",
    market := "", play := "t01 t02 t03 t04 t05 t06", selection := none,
    odds := none, units := none, opponent := none, final_score := none,
    status := "OPEN", result := "OPEN", notes := none, book := none,
    slip_ref := none }

/-- An extraction whose only content is the single visible leg `w6Leg`. -/
def w6Ex : Grade.ExtractedGrade :=
  { ticket :=
      { ticket_status := some "OPEN", ticket_result := some "OPEN", book := none,
        slip_ref := none, paid_amount := none, final_score_visible := false,
        won_tag := false, lost_tag := false, confetti := false,
        paid_amount_shown := false, final_score_shown := false, notes := none }
    bets := [w6Leg]
    issues := [] }

/-- No caller-supplied hints. -/
def w6Opts : Grade.GradeOpts := { slipRefHint := none, bookHint := none }

/-- An open row under slip reference `S1`. -/
def w7Bet : Grade.BetRow :=
  { id := "wb7", date := "2026-01-10", capper := "cap", league := "NBA",
    market := "Spread", play := "Lakers -3.5", selection := none, odds := none,
    units := none, opponent := none, final_score := none, status := "OPEN",
    result := "OPEN", notes := none, book := none, slip_ref := some "S1" }

/-- A ticket-level FINAL/WIN extraction carrying slip reference `S1`. -/
def w7Ex : Grade.ExtractedGrade :=
  { ticket :=
      { ticket_status := some "FINAL", ticket_result := some "WIN", book := none,
        slip_ref := some "S1", paid_amount := none, final_score_visible := false,
        won_tag := true, lost_tag := false, confetti := false,
        paid_amount_shown := false, final_score_shown := false, notes := none }
    bets := []
    issues := [] }

/-- No caller-supplied hints. -/
def w7Opts : Grade.GradeOpts := { slipRefHint := none, bookHint := none }

/-- An open row under a different slip reference than the queried one. -/
def w8Bet : Grade.BetRow :=
  { id := "wb8", date := "2026-01-11", capper := "cap", league := "NFL",
    market := "ML", play := "Chiefs ML", selection := none, odds := none,
    units := none, opponent := none, final_score := none, status := "OPEN",
    result := "OPEN", notes := none, book := none, slip_ref := some "OTHER" }

/-- A FINAL/WIN extraction with no slip reference of its own. -/
def w8Ex : Grade.ExtractedGrade :=
  { ticket :=
      { ticket_status := some "FINAL", ticket_result := some "WIN", book := none,
        slip_ref := none, paid_amount := none, final_score_visible := false,
        won_tag := false, lost_tag := false, confetti := false,
        paid_amount_shown := false, final_score_shown := false, notes := none }
    bets := []
    issues := [] }

/-- A caller-supplied slip reference that matches no open row. -/
def w8Opts : Grade.GradeOpts := { slipRefHint := some "S9", bookHint := none }

/-- A settled leg with play, market and opponent text. -/
def c9Leg : Grade.ExtractedLeg :=
  { leg_index := none, total_legs := none, parlay := false, market := some "mm",
    play := some "alpha", selection := none, opponent := some "dd",
    result := some "WIN", final_score := none, confidence := none }

/-- A row whose combined text is byte-identical to `c9Leg`'s combined text
(the `mm` token sits in `selection`, so the market component scores `0`). -/
def c9X : Grade.BetRow :=
  { id := "X", date := "2026-01-12", capper := "cap", league := "NBA",
    market := "", play := "alpha", selection := some "mm", odds := none,
    units := none, opponent := some "dd", final_score := none,
    status := "OPEN", result := "OPEN", notes := none, book := none,
    slip_ref := none }

/-- A row with the same token set but the `mm` token in `market`, scoring
higher on the blended score though not byte-identical. -/
def c9Y : Grade.BetRow :=
  { id := "Y", date := "2026-01-13", capper := "cap", league := "NBA",
    market := "mm", play := "alpha", selection := none, odds := none,
    units := none, opponent := some "dd", final_score := none,
    status := "OPEN", result := "OPEN", notes := none, book := none,
    slip_ref := none }

/-- A settled leg with play and opponent text only. -/
def w9Leg : Grade.ExtractedLeg :=
  { leg_index := none, total_legs := none, parlay := false, market := none,
    play := some "alpha", selection := none, opponent := some "dd",
    result := some "WIN", final_score := none, confidence := none }

/-- A row byte-identical to `w9Leg`'s combined text. -/
def w9X : Grade.BetRow :=
  { id := "X9", date := "2026-01-14", capper := "cap", league := "NBA",
    market := "", play := "alpha", selection := none, odds := none,
    units := none, opponent := some "dd", final_score := none,
    status := "OPEN", result := "OPEN", notes := none, book := none,
    slip_ref := none }

/-- A row sharing no token with `w9Leg`. -/
def w9Z : Grade.BetRow :=
  { id := "Z9", date := "2026-01-15", capper := "cap", league := "NBA",
    market := "", play := "zz", selection := none, odds := none,
    units := none, opponent := some "qq", final_score := none,
    status := "OPEN", result := "OPEN", notes := none, book := none,
    slip_ref := none }

namespace Router

/-- The element `x` of a provider order is unconfigured or its call fails. -/
def elemFails (call : CallFn) (opts : CallOpts)
    (x : ProviderName × Option OpenAICompatConfig) : Prop :=
  ∀ c, x.2 = some c → ∃ e, call c opts = Except.error e

/-- The error message of a (failing) call. -/
def errOf (call : CallFn) (opts : CallOpts) (c : OpenAICompatConfig) : String :=
  match call c opts with
  | .ok _ => ""
  | .error e => e

/-- The `tried` entries accumulated over an order in which every configured
provider fails: one `"name: reason"` string per configured provider. -/
def triedOf (call : CallFn) (opts : CallOpts)
    (order : List (ProviderName × Option OpenAICompatConfig)) : List String :=
  order.filterMap (fun x => x.2.map (fun c => provName x.1 ++ ": " ++ errOf call opts c))

end Router

namespace Router

/-- If every element before a configured, succeeding provider fails or is
skipped, `tryInOrderAux` returns that provider's text. -/
theorem tryInOrderAux_ok (call : CallFn) (opts : CallOpts) :
    ∀ (pre : List (ProviderName × Option OpenAICompatConfig)) (n : ProviderName)
      (c : OpenAICompatConfig) (post : List (ProviderName × Option OpenAICompatConfig))
      (tried : List String) (t : String),
      (∀ x ∈ pre, elemFails call opts x) → call c opts = .ok t →
      tryInOrderAux call opts (pre ++ (n, some c) :: post) tried = .ok t := by
  intro pre
  induction pre with
  | nil =>
      intro n c post tried t _ hc
      simp [tryInOrderAux, hc]
  | cons hd tl ih =>
      intro n c post tried t hfail hc
      obtain ⟨m, oc⟩ := hd
      cases oc with
      | none =>
          simpa [tryInOrderAux] using
            ih n c post tried t (fun x hx => hfail x (List.mem_cons_of_mem _ hx)) hc
      | some cc =>
          obtain ⟨e, he⟩ := hfail (m, some cc) (List.mem_cons_self _ _) cc rfl
          simp only [List.cons_append, tryInOrderAux, he]
          exact ih n c post _ t (fun x hx => hfail x (List.mem_cons_of_mem _ hx)) hc

/-- If every configured provider in the order fails, `tryInOrderAux`
returns the aggregated error over the accumulated and new `tried`
entries. -/
theorem tryInOrderAux_allfail (call : CallFn) (opts : CallOpts) :
    ∀ (order : List (ProviderName × Option OpenAICompatConfig)) (tried : List String),
      (∀ x ∈ order, elemFails call opts x) →
      tryInOrderAux call opts order tried =
        .error (if (tried ++ triedOf call opts order).isEmpty then noProvidersMsg
                else allFailedMsg (tried ++ triedOf call opts order)) := by
  intro order
  induction order with
  | nil => intro tried _; simp [tryInOrderAux, triedOf]
  | cons hd tl ih =>
      intro tried hfail
      obtain ⟨m, oc⟩ := hd
      cases oc with
      | none =>
          simpa [tryInOrderAux, triedOf] using
            ih tried (fun x hx => hfail x (List.mem_cons_of_mem _ hx))
      | some cc =>
          obtain ⟨e, he⟩ := hfail (m, some cc) (List.mem_cons_self _ _) cc rfl
          have herr : errOf call opts cc = e := by simp [errOf, he]
          simp only [tryInOrderAux, he]
          rw [ih _ (fun x hx => hfail x (List.mem_cons_of_mem _ hx))]
          simp [triedOf, herr]

/-- `tryInOrderAux` errors exactly when every configured provider in the
order fails. -/
theorem tryInOrderAux_error_iff (call : CallFn) (opts : CallOpts) :
    ∀ (order : List (ProviderName × Option OpenAICompatConfig)) (tried : List String),
      (∃ msg, tryInOrderAux call opts order tried = .error msg) ↔
        ∀ x ∈ order, elemFails call opts x := by
  intro order
  induction order with
  | nil =>
      intro tried
      constructor
      · intro _ x hx
        simp at hx
      · intro _
        exact ⟨_, rfl⟩
  | cons hd tl ih =>
      intro tried
      obtain ⟨m, oc⟩ := hd
      cases oc with
      | none =>
          constructor
          · intro h x hx
            rcases List.mem_cons.1 hx with hx | hx
            · subst hx; intro c hc; simp at hc
            · exact ((ih tried).1 (by simpa [tryInOrderAux] using h)) x hx
          · intro h
            have := (ih tried).2 (fun x hx => h x (List.mem_cons_of_mem _ hx))
            simpa [tryInOrderAux] using this
      | some cc =>
          cases hcall : call cc opts with
          | ok t =>
              constructor
              · intro h
                exfalso
                obtain ⟨msg, hmsg⟩ := h
                simp [tryInOrderAux, hcall] at hmsg
              · intro h
                obtain ⟨e, he⟩ := h (m, some cc) (List.mem_cons_self _ _) cc rfl
                rw [hcall] at he
                exact absurd he (by simp)
          | error e =>
              constructor
              · intro h x hx
                rcases List.mem_cons.1 hx with hx | hx
                · subst hx
                  intro c hc
                  obtain rfl : cc = c := by simpa using hc
                  exact ⟨e, hcall⟩
                · refine ((ih (tried ++ [provName m ++ ": " ++ e])).1 ?_) x hx
                  simpa [tryInOrderAux, hcall] using h
              · intro h
                have := (ih (tried ++ [provName m ++ ": " ++ e])).2
                  (fun x hx => h x (List.mem_cons_of_mem _ hx))
                simpa [tryInOrderAux, hcall] using this

/-- With at least one configured provider, the all-fail `tried` list is
non-empty. -/
theorem triedOf_ne_nil (call : CallFn) (opts : CallOpts)
    (order : List (ProviderName × Option OpenAICompatConfig))
    (h : ∃ x ∈ order, x.2 ≠ none) : triedOf call opts order ≠ [] := by
  obtain ⟨x, hx, hcfg⟩ := h
  intro hnil
  rw [triedOf, List.filterMap_eq_nil_iff] at hnil
  have := hnil x hx
  cases hx2 : x.2 with
  | none => exact hcfg hx2
  | some c => rw [hx2] at this; simp at this

/-- `runPrimary` is `tryInOrder` over the primary order at the strategy's
options. -/
theorem runPrimary_eq (strategy : Strategy) (cfgs : ProviderConfigMap) (call : CallFn) :
    runPrimary strategy cfgs call = tryInOrder (primaryOrder cfgs) call (primaryOpts strategy) := by
  by_cases h : strategy = Strategy.fast <;> simp [runPrimary, primaryOpts, h]

end Router

/-- C4: `runPrimary(strategy, messages)` iterates the configured providers
in priority order, skipping unconfigured ones, and returns exactly the
first successful provider's response text unchanged (if every configured
provider before position `i` fails and the provider at `i` succeeds, the
result is that provider's text). It errors if and only if every configured
provider errors, and in that case the error is the aggregated
`"All providers failed. ..."` message enumerating one `"name: reason"`
entry per tried provider. -/
theorem C4_runPrimary_first_success_and_aggregate :
    (∀ (strategy : Router.Strategy) (cfgs : Router.ProviderConfigMap) (call : Router.CallFn)
        (pre : List (Router.ProviderName × Option Router.OpenAICompatConfig))
        (n : Router.ProviderName) (c : Router.OpenAICompatConfig)
        (post : List (Router.ProviderName × Option Router.OpenAICompatConfig)) (t : String),
        Router.primaryOrder cfgs = pre ++ (n, some c) :: post →
        (∀ x ∈ pre, Router.elemFails call (Router.primaryOpts strategy) x) →
        call c (Router.primaryOpts strategy) = .ok t →
        Router.runPrimary strategy cfgs call = .ok t) ∧
    (∀ (strategy : Router.Strategy) (cfgs : Router.ProviderConfigMap) (call : Router.CallFn),
        (∃ msg, Router.runPrimary strategy cfgs call = .error msg) ↔
          ∀ x ∈ Router.primaryOrder cfgs, Router.elemFails call (Router.primaryOpts strategy) x) ∧
    (∀ (strategy : Router.Strategy) (cfgs : Router.ProviderConfigMap) (call : Router.CallFn),
        (∀ x ∈ Router.primaryOrder cfgs, Router.elemFails call (Router.primaryOpts strategy) x) →
        (∃ x ∈ Router.primaryOrder cfgs, x.2 ≠ none) →
        Router.runPrimary strategy cfgs call =
          .error (Router.allFailedMsg
            (Router.triedOf call (Router.primaryOpts strategy) (Router.primaryOrder cfgs)))) ∧
    (∀ (strategy : Router.Strategy) (cfgs : Router.ProviderConfigMap) (call : Router.CallFn)
        (x : Router.ProviderName × Option Router.OpenAICompatConfig)
        (c : Router.OpenAICompatConfig),
        x ∈ Router.primaryOrder cfgs → x.2 = some c →
        (Router.provName x.1 ++ ": " ++ Router.errOf call (Router.primaryOpts strategy) c)
          ∈ Router.triedOf call (Router.primaryOpts strategy) (Router.primaryOrder cfgs)) := by
  refine ⟨?_, ?_, ?_, ?_⟩
  · intro strategy cfgs call pre n c post t horder hfail hc
    rw [Router.runPrimary_eq, horder]
    exact Router.tryInOrderAux_ok call _ pre n c post [] t hfail hc
  · intro strategy cfgs call
    rw [Router.runPrimary_eq]
    exact Router.tryInOrderAux_error_iff call _ (Router.primaryOrder cfgs) []
  · intro strategy cfgs call hfail hcfg
    rw [Router.runPrimary_eq, Router.tryInOrder,
      Router.tryInOrderAux_allfail call _ (Router.primaryOrder cfgs) [] hfail]
    have hne := Router.triedOf_ne_nil call (Router.primaryOpts strategy) (Router.primaryOrder cfgs) hcfg
    simp [List.isEmpty_iff, hne]
  · intro strategy cfgs call x c hx hc
    rw [Router.triedOf]
    exact List.mem_filterMap.2 ⟨x, hx, by rw [hc]; rfl⟩

/-- C4 witness: with groq and cerebras configured, groq failing and
cerebras answering `"B"`, `runPrimary` returns `"B"`. -/
theorem C4_runPrimary_first_success_and_aggregate_witness :
    Router.runPrimary .fast r4Cfgs r4Call = .ok "B" := by
  refine C4_runPrimary_first_success_and_aggregate.1 .fast r4Cfgs r4Call
    [(.groq, some r4Cfg1)] .cerebras r4Cfg2 [(.mistral, none), (.hf, none)] "B" (by decide) ?_ rfl
  intro x hx cc hcc
  have hxe : x = (Router.ProviderName.groq, some r4Cfg1) := by
    simpa using hx
  subst hxe
  obtain rfl : r4Cfg1 = cc := by simpa using hcc
  exact ⟨"boom", rfl⟩

/-- C5 (amended): `runConsensus` attempts the first two configured
providers in parallel. If both succeed it returns both texts. If exactly
one of the two parallel attempts succeeds, it additionally tries each
remaining configured provider sequentially, returning the first such
success in the second slot and `null` there only when every remaining
provider fails. Only when both parallel attempts fail does it fall back to
sequential iteration over all configured providers, returning
`{a: text, b: null}` (or the aggregated error when everything fails). -/
theorem C5_runConsensus_parallel_then_sequential :
    (∀ (cfgs : Router.ProviderConfigMap) (call : Router.CallFn) p q rest (t1 t2 : String),
        Router.consensusCandidates cfgs = p :: q :: rest →
        call p.2 Router.consensusOpts = .ok t1 →
        call q.2 Router.consensusOpts = .ok t2 →
        Router.runConsensus cfgs call = .ok (t1, some t2)) ∧
    (∀ (cfgs : Router.ProviderConfigMap) (call : Router.CallFn) p q rest (t1 e : String),
        Router.consensusCandidates cfgs = p :: q :: rest →
        call p.2 Router.consensusOpts = .ok t1 →
        call q.2 Router.consensusOpts = .error e →
        Router.runConsensus cfgs call =
          .ok (t1, Router.firstSuccess call Router.consensusOpts rest)) ∧
    (∀ (cfgs : Router.ProviderConfigMap) (call : Router.CallFn) p q rest (t2 e : String),
        Router.consensusCandidates cfgs = p :: q :: rest →
        call p.2 Router.consensusOpts = .error e →
        call q.2 Router.consensusOpts = .ok t2 →
        Router.runConsensus cfgs call =
          .ok (t2, Router.firstSuccess call Router.consensusOpts rest)) ∧
    (∀ (cfgs : Router.ProviderConfigMap) (call : Router.CallFn) p q rest (e1 e2 : String),
        Router.consensusCandidates cfgs = p :: q :: rest →
        call p.2 Router.consensusOpts = .error e1 →
        call q.2 Router.consensusOpts = .error e2 →
        Router.runConsensus cfgs call =
          Except.map (fun t => (t, (none : Option String)))
            (Router.tryInOrder ((p :: q :: rest).map (fun x => (x.1, some x.2)))
              call Router.consensusOpts)) := by
  refine ⟨?_, ?_, ?_, ?_⟩
  · intro cfgs call p q rest t1 t2 hcands hp hq
    rw [Router.runConsensus, hcands]
    simp [hp, hq, List.filterMap_cons, Except.toOption]
  · intro cfgs call p q rest t1 e hcands hp hq
    rw [Router.runConsensus, hcands]
    cases hfs : Router.firstSuccess call Router.consensusOpts rest with
    | some second => simp [hp, hq, hfs, List.filterMap_cons, Except.toOption]
    | none => simp [hp, hq, hfs, List.filterMap_cons, Except.toOption]
  · intro cfgs call p q rest t2 e hcands hp hq
    rw [Router.runConsensus, hcands]
    cases hfs : Router.firstSuccess call Router.consensusOpts rest with
    | some second => simp [hp, hq, hfs, List.filterMap_cons, Except.toOption]
    | none => simp [hp, hq, hfs, List.filterMap_cons, Except.toOption]
  · intro cfgs call p q rest e1 e2 hcands hp hq
    rw [Router.runConsensus, hcands]
    cases htry : Router.tryInOrder ((p :: q :: rest).map (fun x => (x.1, some x.2)))
        call Router.consensusOpts with
    | ok t => simp [hp, hq, htry, Except.map, List.filterMap_cons, Except.toOption]
    | error e => simp [hp, hq, htry, Except.map, List.filterMap_cons, Except.toOption]

/-- C5 witness: with both leading providers succeeding (`"A"` and `"B"`),
`runConsensus` returns both texts. -/
theorem C5_runConsensus_parallel_then_sequential_witness :
    Router.runConsensus r5Cfgs r5CallWit = .ok ("A", some "B") :=
  C5_runConsensus_parallel_then_sequential.1 r5Cfgs r5CallWit
    (.groq, r5CfgG) (.cerebras, r5CfgC) [(.mistral, r5CfgM)] "A" "B" (by decide) rfl rfl

/-- C5 counterexample: with three configured providers where the first
parallel attempt fails and the second succeeds with `"B"`, the claim says
the result is `("B", null)`; the code instead keeps calling the remaining
provider sequentially and returns `("B", "C")`. -/
theorem C5_runConsensus_counterexample :
    Router.runConsensus r5Cfgs r5CallCex = .ok ("B", some "C") ∧
      Except.ok ("B", some "C") ≠
        (Except.ok ("B", none) : Except String (String × Option String)) := by
  constructor
  · rfl
  · intro h
    simp at h

/-- C1 (amended): for a FINAL bet, a WIN with coerced odds non-zero and
coerced units positive yields the American-odds payout
(`units * odds/100` for positive odds, `units * 100/|odds|` for negative
odds); a LOSS yields minus the coerced units; a PUSH or VOID yields `0`;
and `netUnits` is a pure function of `status`, `result`, `odds` and
`units`. (The unconditional claim fails: a WIN with non-positive units or
zero/non-numeric odds is clamped to `0`, see the counterexample.) -/
theorem C1_netUnits_final_win_formula (b : AppShell.BetRow)
    (hst : jsUpper b.status = "FINAL") :
    (jsUpper b.result = "WIN" → AppShell.toNumber b.odds 0 ≠ 0 →
      0 < AppShell.toNumber b.units 0 →
      AppShell.netUnits b =
        (if 0 < AppShell.toNumber b.odds 0
         then AppShell.toNumber b.units 0 * (AppShell.toNumber b.odds 0 / 100)
         else AppShell.toNumber b.units 0 * (100 / |AppShell.toNumber b.odds 0|))) ∧
    (jsUpper b.result = "LOSS" → AppShell.netUnits b = -(AppShell.toNumber b.units 0)) ∧
    (jsUpper b.result = "PUSH" ∨ jsUpper b.result = "VOID" → AppShell.netUnits b = 0) ∧
    (∀ b' : AppShell.BetRow, b'.status = b.status → b'.result = b.result →
      b'.odds = b.odds → b'.units = b.units → AppShell.netUnits b' = AppShell.netUnits b) := by
  refine ⟨?_, ?_, ?_, ?_⟩
  · intro hr hodds hunits
    rw [AppShell.netUnits]
    rw [if_neg (by simp [hst])]
    rw [if_pos hr]
    rw [AppShell.profitIfWinUnits, if_neg hodds, if_neg (not_le.2 hunits)]
  · intro hr
    rw [AppShell.netUnits]
    rw [if_neg (by simp [hst])]
    simp [hr]
  · intro hr
    rw [AppShell.netUnits]
    rw [if_neg (by simp [hst])]
    rcases hr with hr | hr <;> simp [hr]
  · intro b' h1 h2 h3 h4
    rw [AppShell.netUnits, AppShell.netUnits, h1, h2, h3, h4]

/-- C1 witness: a FINAL WIN at odds `+150` for `2` units nets `3` units. -/
theorem C1_netUnits_final_win_formula_witness : AppShell.netUnits w1Bet = 3 := by
  have h := (C1_netUnits_final_win_formula w1Bet (by decide)).1 (by decide)
    (by norm_num [w1Bet, AppShell.toNumber]) (by norm_num [w1Bet, AppShell.toNumber])
  rw [h]
  norm_num [w1Bet, AppShell.toNumber]

/-- C1 counterexample: the claim's unconditional payout formula fails on a
FINAL WIN with odds `+100` and units `-1` — the formula gives `-1`, the
code gives `0` (`profitIfWinUnits` clamps `units <= 0` to `0`). -/
theorem C1_netUnits_counterexample :
    AppShell.netUnits c1Bet = 0 ∧
      AppShell.toNumber c1Bet.units 0 * (AppShell.toNumber c1Bet.odds 0 / 100) = -1 ∧
      (0 : ℚ) ≠ -1 := by
  refine ⟨?_, ?_, by norm_num⟩
  · rw [AppShell.netUnits]
    rw [if_neg (by decide)]
    simp only [c1Bet, AppShell.toNumber]
    rw [if_pos (by decide)]
    rw [AppShell.profitIfWinUnits, if_neg (by norm_num), if_pos (by norm_num)]
  · norm_num [c1Bet, AppShell.toNumber]

/-- C10: `netUnits` is total and clamps the edge cases to `0`: any bet
whose status is not FINAL nets `0`; a FINAL CASHOUT nets `0`; and a FINAL
WIN with zero coerced odds, a non-numeric odds string, or non-positive
coerced units nets `0` rather than erroring. -/
theorem C10_netUnits_zero_edge_cases :
    (∀ b : AppShell.BetRow, jsUpper b.status ≠ "FINAL" → AppShell.netUnits b = 0) ∧
    (∀ b : AppShell.BetRow, jsUpper b.status = "FINAL" → jsUpper b.result = "CASHOUT" →
      AppShell.netUnits b = 0) ∧
    (∀ b : AppShell.BetRow, jsUpper b.status = "FINAL" → jsUpper b.result = "WIN" →
      (AppShell.toNumber b.odds 0 = 0 ∨ AppShell.toNumber b.units 0 ≤ 0 ∨
        b.odds = .str none) →
      AppShell.netUnits b = 0) := by
  refine ⟨?_, ?_, ?_⟩
  · intro b hb
    rw [AppShell.netUnits, if_pos hb]
  · intro b hst hr
    rw [AppShell.netUnits, if_neg (by simp [hst])]
    simp [hr]
  · intro b hst hr hcase
    rw [AppShell.netUnits, if_neg (by simp [hst])]
    rw [if_pos hr]
    rw [AppShell.profitIfWinUnits]
    rcases hcase with h | h | h
    · rw [if_pos h]
    · by_cases hz : AppShell.toNumber b.odds 0 = 0
      · rw [if_pos hz]
      · rw [if_neg hz, if_pos h]
    · have hz : AppShell.toNumber b.odds 0 = 0 := by rw [h]; rfl
      rw [if_pos hz]

/-- C10 witness: the edge cases at concrete rows — an OPEN row, a FINAL
CASHOUT, a FINAL WIN with zero units, and a FINAL WIN with non-numeric
odds — all net `0`. -/
theorem C10_netUnits_zero_edge_cases_witness :
    AppShell.netUnits c10Open = 0 ∧ AppShell.netUnits c10Cash = 0 ∧
      AppShell.netUnits c10Edge = 0 ∧ AppShell.netUnits c10Nan = 0 := by
  refine ⟨?_, ?_, ?_, ?_⟩
  · exact C10_netUnits_zero_edge_cases.1 c10Open (by decide)
  · exact C10_netUnits_zero_edge_cases.2.1 c10Cash (by decide) (by decide)
  · exact C10_netUnits_zero_edge_cases.2.2 c10Edge (by decide) (by decide)
      (Or.inr (Or.inl (by norm_num [c10Edge, AppShell.toNumber])))
  · exact C10_netUnits_zero_edge_cases.2.2 c10Nan (by decide) (by decide)
      (Or.inr (Or.inr rfl))

namespace Grade

/-- Where the running best of the candidate loop can come from. -/
theorem pickBestAux_sound (f : BetRow → ℚ) :
    ∀ (l : List BetRow) (b0 : BetRow) (s0 : ℚ) (b : BetRow) (s : ℚ),
      pickBestAux f (some (b0, s0)) l = some (b, s) →
      s0 ≤ s ∧ (∀ y ∈ l, f y ≤ s) ∧ ((b = b0 ∧ s = s0) ∨ (b ∈ l ∧ s = f b)) := by
  intro l
  induction l with
  | nil =>
      intro b0 s0 b s h
      obtain ⟨rfl, rfl⟩ : b0 = b ∧ s0 = s := by simpa [pickBestAux] using h
      exact ⟨le_refl _, by simp, Or.inl ⟨rfl, rfl⟩⟩
  | cons hd tl ih =>
      intro b0 s0 b s h
      simp only [pickBestAux] at h
      by_cases hlt : s0 < f hd
      · rw [if_pos hlt] at h
        obtain ⟨h1, h2, h3⟩ := ih hd (f hd) b s h
        refine ⟨le_of_lt (lt_of_lt_of_le hlt h1), ?_, ?_⟩
        · intro y hy
          rcases List.mem_cons.1 hy with rfl | hy
          · exact h1
          · exact h2 y hy
        · rcases h3 with ⟨rfl, rfl⟩ | ⟨hmem, rfl⟩
          · exact Or.inr ⟨List.mem_cons_self _ _, rfl⟩
          · exact Or.inr ⟨List.mem_cons_of_mem _ hmem, rfl⟩
      · rw [if_neg hlt] at h
        obtain ⟨h1, h2, h3⟩ := ih b0 s0 b s h
        refine ⟨h1, ?_, ?_⟩
        · intro y hy
          rcases List.mem_cons.1 hy with rfl | hy
          · exact le_trans (not_lt.1 hlt) h1
          · exact h2 y hy
        · rcases h3 with ⟨rfl, rfl⟩ | ⟨hmem, rfl⟩
          · exact Or.inl ⟨rfl, rfl⟩
          · exact Or.inr ⟨List.mem_cons_of_mem _ hmem, rfl⟩

/-- Soundness of the candidate loop: the selected row is in the pool, the
stored score is its score, and no pool member scores higher. -/
theorem pickBest_sound (f : BetRow → ℚ) (l : List BetRow) (b : BetRow) (s : ℚ)
    (h : pickBest f l = some (b, s)) :
    b ∈ l ∧ s = f b ∧ ∀ y ∈ l, f y ≤ s := by
  cases l with
  | nil => simp [pickBest, pickBestAux] at h
  | cons hd tl =>
      rw [pickBest] at h
      simp only [pickBestAux] at h
      obtain ⟨h1, h2, h3⟩ := pickBestAux_sound f tl hd (f hd) b s h
      refine ⟨?_, ?_, ?_⟩
      · rcases h3 with ⟨rfl, _⟩ | ⟨hmem, _⟩
        · exact List.mem_cons_self _ _
        · exact List.mem_cons_of_mem _ hmem
      · rcases h3 with ⟨rfl, rfl⟩ | ⟨_, rfl⟩ <;> rfl
      · intro y hy
        rcases List.mem_cons.1 hy with rfl | hy
        · exact h1
        · exact h2 y hy

/-- The running best survives a suffix in which nothing scores higher. -/
theorem pickBestAux_keep (f : BetRow → ℚ) :
    ∀ (l : List BetRow) (b0 : BetRow) (s0 : ℚ),
      (∀ y ∈ l, ¬ s0 < f y) → pickBestAux f (some (b0, s0)) l = some (b0, s0) := by
  intro l
  induction l with
  | nil => intro b0 s0 _; simp [pickBestAux]
  | cons hd tl ih =>
      intro b0 s0 h
      simp only [pickBestAux]
      rw [if_neg (h hd (List.mem_cons_self _ _))]
      exact ih b0 s0 (fun y hy => h y (List.mem_cons_of_mem _ hy))

/-- A strict maximum beats any running best that it strictly exceeds. -/
theorem pickBestAux_max (f : BetRow → ℚ) :
    ∀ (l : List BetRow) (x b0 : BetRow) (s0 : ℚ),
      x ∈ l → (∀ y ∈ l, y ≠ x → f y < f x) → s0 < f x →
      pickBestAux f (some (b0, s0)) l = some (x, f x) := by
  intro l
  induction l with
  | nil => intro x b0 s0 hx _ _; exact absurd hx (by simp)
  | cons hd tl ih =>
      intro x b0 s0 hx hmax hs0
      by_cases hhd : hd = x
      · subst hhd
        simp only [pickBestAux]
        rw [if_pos hs0]
        refine pickBestAux_keep f tl hd (f hd) (fun y hy => ?_)
        by_cases hyx : y = hd
        · subst hyx; exact lt_irrefl _
        · exact not_lt.2 (le_of_lt (hmax y (List.mem_cons_of_mem _ hy) hyx))
      · have hxtl : x ∈ tl := by
          rcases List.mem_cons.1 hx with h | h
          · exact absurd h.symm hhd
          · exact h
        have hhdlt : f hd < f x := hmax hd (List.mem_cons_self _ _) hhd
        simp only [pickBestAux]
        by_cases hlt : s0 < f hd
        · rw [if_pos hlt]
          exact ih x hd (f hd) hxtl (fun y hy hyx => hmax y (List.mem_cons_of_mem _ hy) hyx) hhdlt
        · rw [if_neg hlt]
          exact ih x b0 s0 hxtl (fun y hy hyx => hmax y (List.mem_cons_of_mem _ hy) hyx) hs0

/-- The candidate loop selects a strict maximum of the score function. -/
theorem pickBest_max (f : BetRow → ℚ) (l : List BetRow) (x : BetRow)
    (hx : x ∈ l) (hmax : ∀ y ∈ l, y ≠ x → f y < f x) :
    pickBest f l = some (x, f x) := by
  cases l with
  | nil => simp at hx
  | cons hd tl =>
      rw [pickBest]
      simp only [pickBestAux]
      by_cases hhd : hd = x
      · subst hhd
        refine pickBestAux_keep f tl hd (f hd) (fun y hy => ?_)
        by_cases hyx : y = hd
        · subst hyx; exact lt_irrefl _
        · exact not_lt.2 (le_of_lt (hmax y (List.mem_cons_of_mem _ hy) hyx))
      · have hxtl : x ∈ tl := by
          rcases List.mem_cons.1 hx with h | h
          · exact absurd h.symm hhd
          · exact h
        exact pickBestAux_max f tl x hd (f hd) hxtl
          (fun y hy hyx => hmax y (List.mem_cons_of_mem _ hy) hyx)
          (hmax hd (List.mem_cons_self _ _) hhd)

/-- A leg with result `OPEN` is skipped without proposal or diagnostic. -/
theorem legStep_open (cands : List BetRow) (acc : List GradeProposal × List String)
    (leg : ExtractedLeg) (h : legResultOf leg = "OPEN") :
    legStep cands acc leg = acc := by
  simp [legStep, h]

/-- With an empty candidate pool the leg yields the unmatched diagnostic. -/
theorem legStep_none (cands : List BetRow) (acc : List GradeProposal × List String)
    (leg : ExtractedLeg) (h : legResultOf leg ≠ "OPEN")
    (hp : pickBest (legScore leg) cands = none) :
    legStep cands acc leg = (acc.1, acc.2 ++ [unmatchedLegMsg leg]) := by
  simp [legStep, h, hp]

/-- A best score below `0.35` yields the unmatched diagnostic, no proposal. -/
theorem legStep_low (cands : List BetRow) (acc : List GradeProposal × List String)
    (leg : ExtractedLeg) (b : BetRow) (s : ℚ) (h : legResultOf leg ≠ "OPEN")
    (hp : pickBest (legScore leg) cands = some (b, s)) (hs : s < 0.35) :
    legStep cands acc leg = (acc.1, acc.2 ++ [unmatchedLegMsg leg]) := by
  simp [legStep, h, hp, hs]

/-- A best score of at least `0.35` emits the proposal for the best row. -/
theorem legStep_emit (cands : List BetRow) (acc : List GradeProposal × List String)
    (leg : ExtractedLeg) (b : BetRow) (s : ℚ) (h : legResultOf leg ≠ "OPEN")
    (hp : pickBest (legScore leg) cands = some (b, s)) (hs : ¬ s < 0.35) :
    legStep cands acc leg = (acc.1 ++ [legProposal leg (legResultOf leg) b s], acc.2) := by
  simp [legStep, h, hp, hs]

/-- Invariant of the per-leg fold: every accumulated proposal either was
already there or is an emitted leg proposal for a best-scoring row. -/
theorem foldl_legStep_inv (cands : List BetRow) (P : GradeProposal → Prop)
    (hP : ∀ leg b s, legResultOf leg ≠ "OPEN" →
      pickBest (legScore leg) cands = some (b, s) → ¬ s < 0.35 →
      P (legProposal leg (legResultOf leg) b s)) :
    ∀ (legs : List ExtractedLeg) (acc : List GradeProposal × List String),
      (∀ p ∈ acc.1, P p) → ∀ p ∈ (legs.foldl (legStep cands) acc).1, P p := by
  intro legs
  induction legs with
  | nil =>
      intro acc hacc p hp
      rw [List.foldl_nil] at hp
      exact hacc p hp
  | cons leg tl ih =>
      intro acc hacc p hp
      rw [List.foldl_cons] at hp
      refine ih (legStep cands acc leg) ?_ p hp
      intro q hq
      by_cases hres : legResultOf leg = "OPEN"
      · rw [legStep_open cands acc leg hres] at hq
        exact hacc q hq
      · cases hpb : pickBest (legScore leg) cands with
        | none =>
            rw [legStep_none cands acc leg hres hpb] at hq
            exact hacc q hq
        | some pr =>
            obtain ⟨b, s⟩ := pr
            by_cases hs : s < 0.35
            · rw [legStep_low cands acc leg b s hres hpb hs] at hq
              exact hacc q hq
            · rw [legStep_emit cands acc leg b s hres hpb hs] at hq
              rcases List.mem_append.1 hq with hq | hq
              · exact hacc q hq
              · obtain rfl : q = legProposal leg (legResultOf leg) b s := by simpa using hq
                exact hP leg b s hres hpb hs

/-- Candidates come from the slip-reference pool. -/
theorem mem_candidatesOf {openBets : List BetRow} {ex : ExtractedGrade}
    {opts : GradeOpts} {b : BetRow} (hb : b ∈ candidatesOf openBets ex opts) :
    b ∈ slipPool openBets (slipRefOf ex opts) := by
  simp only [candidatesOf] at hb
  split at hb
  · split at hb
    · exact hb
    · exact (List.mem_filter.1 hb).1
  · exact hb

/-- With a slip reference present, pool members match it. -/
theorem mem_slipPool_of_ref {openBets : List BetRow} {ref : String} {b : BetRow}
    (h1 : ref ≠ "") (hb : b ∈ slipPool openBets ref) :
    b ∈ openBets ∧ slipRefMatches ref b = true := by
  rw [slipPool, if_pos h1] at hb
  exact List.mem_filter.1 hb

/-- An empty slip-reference narrowing empties the candidate pool. -/
theorem candidatesOf_nil_of_filter_nil {openBets : List BetRow} {ex : ExtractedGrade}
    {opts : GradeOpts} (h1 : slipRefOf ex opts ≠ "")
    (h2 : openBets.filter (slipRefMatches (slipRefOf ex opts)) = []) :
    candidatesOf openBets ex opts = [] := by
  have hbase : slipPool openBets (slipRefOf ex opts) = [] := by
    rw [slipPool, if_pos h1, h2]
  simp only [candidatesOf, hbase]
  split
  · simp
  · rfl

/-- Without hints, the candidate pool is the whole fetched list. -/
theorem candidatesOf_no_hints {openBets : List BetRow} {ex : ExtractedGrade}
    {opts : GradeOpts} (hsr : slipRefOf ex opts = "") (hbh : bookHintOf ex opts = "") :
    candidatesOf openBets ex opts = openBets := by
  simp [candidatesOf, slipPool, hsr, hbh]

/-- The early no-match return of `buildProposals`. -/
theorem buildProposals_noMatch {openBets : List BetRow} {ex : ExtractedGrade}
    {opts : GradeOpts} (h1 : slipRefOf ex opts ≠ "")
    (h2 : (openBets.filter (slipRefMatches (slipRefOf ex opts))).isEmpty = true) :
    buildProposals openBets ex opts =
      { proposals := [], issues := [noMatchIssue (slipRefOf ex opts)], matchedCount := 0 } := by
  simp only [buildProposals]
  rw [if_pos ⟨h1, h2⟩]

/-- The ticket-level settlement branch of `buildProposals`. -/
theorem buildProposals_ticket {openBets : List BetRow} {ex : ExtractedGrade}
    {opts : GradeOpts}
    (hno : ¬(slipRefOf ex opts ≠ "" ∧
      (openBets.filter (slipRefMatches (slipRefOf ex opts))).isEmpty = true))
    (hcond : normalizeStatus ex.ticket.ticket_status = "FINAL" ∧
      normalizeResult ex.ticket.ticket_result ≠ "OPEN" ∧
      ¬(candidatesOf openBets ex opts).isEmpty = true) :
    buildProposals openBets ex opts =
      { proposals := (candidatesOf openBets ex opts).map
          (ticketProposal (slipRefOf ex opts) (normalizeResult ex.ticket.ticket_result)
            (scoreTextOf ex)
            (String.intercalate " | "
              (ticketNoteParts ex (normalizeResult ex.ticket.ticket_result))))
        issues := if slipRefOf ex opts ≠ "" then [] else [noSlipRefIssue]
        matchedCount := (candidatesOf openBets ex opts).length } := by
  simp only [buildProposals]
  rw [if_neg hno, if_pos hcond]

/-- The no-visible-legs return of `buildProposals`. -/
theorem buildProposals_noLegs {openBets : List BetRow} {ex : ExtractedGrade}
    {opts : GradeOpts}
    (hno : ¬(slipRefOf ex opts ≠ "" ∧
      (openBets.filter (slipRefMatches (slipRefOf ex opts))).isEmpty = true))
    (htk : ¬(normalizeStatus ex.ticket.ticket_status = "FINAL" ∧
      normalizeResult ex.ticket.ticket_result ≠ "OPEN" ∧
      ¬(candidatesOf openBets ex opts).isEmpty = true))
    (hlegs : visibleLegsOf ex = []) :
    buildProposals openBets ex opts =
      { proposals := []
        issues := (if slipRefOf ex opts ≠ "" then [] else [noSlipRefIssue]) ++ [noVisibleLegsIssue]
        matchedCount := 0 } := by
  simp only [buildProposals]
  rw [if_neg hno, if_neg htk]
  simp [hlegs]

/-- The per-leg matching branch of `buildProposals`. -/
theorem buildProposals_leg {openBets : List BetRow} {ex : ExtractedGrade}
    {opts : GradeOpts}
    (hno : ¬(slipRefOf ex opts ≠ "" ∧
      (openBets.filter (slipRefMatches (slipRefOf ex opts))).isEmpty = true))
    (htk : ¬(normalizeStatus ex.ticket.ticket_status = "FINAL" ∧
      normalizeResult ex.ticket.ticket_result ≠ "OPEN" ∧
      ¬(candidatesOf openBets ex opts).isEmpty = true))
    (hlegs : visibleLegsOf ex ≠ []) :
    buildProposals openBets ex opts =
      { proposals := ((visibleLegsOf ex).foldl (legStep (candidatesOf openBets ex opts))
          ([], if slipRefOf ex opts ≠ "" then [] else [noSlipRefIssue])).1
        issues := ((visibleLegsOf ex).foldl (legStep (candidatesOf openBets ex opts))
          ([], if slipRefOf ex opts ≠ "" then [] else [noSlipRefIssue])).2
        matchedCount := ((visibleLegsOf ex).foldl (legStep (candidatesOf openBets ex opts))
          ([], if slipRefOf ex opts ≠ "" then [] else [noSlipRefIssue])).1.length } := by
  simp only [buildProposals]
  rw [if_neg hno, if_neg htk, if_neg (by simpa [List.isEmpty_iff] using hlegs)]

/-- Every proposal of `buildProposals` is either a ticket-level settlement
proposal or an emitted leg proposal for a candidate row. -/
theorem buildProposals_proposal_cases {openBets : List BetRow} {ex : ExtractedGrade}
    {opts : GradeOpts} :
    ∀ p ∈ (buildProposals openBets ex opts).proposals,
      (∃ b ∈ candidatesOf openBets ex opts,
          normalizeResult ex.ticket.ticket_result ≠ "OPEN" ∧
          p = ticketProposal (slipRefOf ex opts) (normalizeResult ex.ticket.ticket_result)
                (scoreTextOf ex)
                (String.intercalate " | "
                  (ticketNoteParts ex (normalizeResult ex.ticket.ticket_result))) b) ∨
      (∃ leg b s, legResultOf leg ≠ "OPEN" ∧ b ∈ candidatesOf openBets ex opts ∧
          p = legProposal leg (legResultOf leg) b s) := by
  intro p hp
  by_cases hno : slipRefOf ex opts ≠ "" ∧
      (openBets.filter (slipRefMatches (slipRefOf ex opts))).isEmpty = true
  · rw [buildProposals_noMatch hno.1 hno.2] at hp
    simp at hp
  · by_cases htk : normalizeStatus ex.ticket.ticket_status = "FINAL" ∧
        normalizeResult ex.ticket.ticket_result ≠ "OPEN" ∧
        ¬(candidatesOf openBets ex opts).isEmpty = true
    · rw [buildProposals_ticket hno htk] at hp
      simp only at hp
      obtain ⟨b, hb, hpb⟩ := List.mem_map.1 hp
      exact Or.inl ⟨b, hb, htk.2.1, hpb.symm⟩
    · by_cases hlegs : visibleLegsOf ex = []
      · rw [buildProposals_noLegs hno htk hlegs] at hp
        simp at hp
      · rw [buildProposals_leg hno htk hlegs] at hp
        simp only at hp
        refine foldl_legStep_inv (candidatesOf openBets ex opts)
          (fun q =>
            (∃ b ∈ candidatesOf openBets ex opts,
                normalizeResult ex.ticket.ticket_result ≠ "OPEN" ∧
                q = ticketProposal (slipRefOf ex opts) (normalizeResult ex.ticket.ticket_result)
                      (scoreTextOf ex)
                      (String.intercalate " | "
                        (ticketNoteParts ex (normalizeResult ex.ticket.ticket_result))) b) ∨
            (∃ leg b s, legResultOf leg ≠ "OPEN" ∧ b ∈ candidatesOf openBets ex opts ∧
                q = legProposal leg (legResultOf leg) b s))
          ?_ (visibleLegsOf ex) _ (by simp) p hp
        intro leg b s hres hpb hs
        exact Or.inr ⟨leg, b, s, hres, (pickBest_sound (legScore leg) _ b s hpb).1, rfl⟩

end Grade

namespace Grade

/-- Evaluate `overlapScore` from token-set cardinalities. -/
theorem overlapScore_eval (a b : String) (m n k : ℕ)
    (hA : (tokenSet a).card = m) (hB : (tokenSet b).card = n)
    (hI : (tokenSet a ∩ tokenSet b).card = k) (hm : m ≠ 0) (hn : n ≠ 0) :
    overlapScore a b = (k : ℚ) / ((max m n : ℕ) : ℚ) := by
  simp only [overlapScore]
  rw [hA, hB, hI, if_neg (by simp [hm, hn])]

/-- `overlapScore` is `0` when the first token set is empty. -/
theorem overlapScore_zero_left (a b : String) (h : (tokenSet a).card = 0) :
    overlapScore a b = 0 := by
  simp only [overlapScore]
  rw [if_pos (Or.inl h)]

/-- `overlapScore` is `0` when the second token set is empty. -/
theorem overlapScore_zero_right (a b : String) (h : (tokenSet b).card = 0) :
    overlapScore a b = 0 := by
  simp only [overlapScore]
  rw [if_pos (Or.inr h)]

/-- Evaluate the blended leg score from its three components. -/
theorem legScore_eval (leg : ExtractedLeg) (b : BetRow) (x y z : ℚ)
    (h1 : overlapScore (legCombined leg) (betCombined b) = x)
    (h2 : overlapScore (leg.opponent.getD "") (b.opponent.getD "") = y)
    (h3 : overlapScore (leg.market.getD "") b.market = z) :
    legScore leg b = x * 0.65 + y * 0.2 + z * 0.15 := by
  simp only [legScore]
  rw [h1, h2, h3]

end Grade

/-- C2: the save path enforces the invariant that a FINAL row has a
settled result: a form with status FINAL and result OPEN is always
rejected with an error (no write), specifically with the user-facing
FINAL/result message once the earlier validations pass; any payload the
save path does write satisfies `status = FINAL → result ≠ OPEN`; and every
grading proposal built by the slip-grade route likewise proposes status
FINAL only with a non-OPEN result. -/
theorem C2_final_requires_settled_result :
    (∀ (pn : String → Option ℚ) (eid : Option String) (f : BetsPage.SaveForm)
        (r : Option BetsPage.LeagueResolution),
        f.status = "FINAL" → f.result = "OPEN" →
        ∃ e, BetsPage.save pn eid f r = .error e) ∧
    (∀ (pn : String → Option ℚ) (eid : Option String) (f : BetsPage.SaveForm)
        (rr : BetsPage.LeagueResolution),
        f.date ≠ "" → jsTrim f.capper ≠ "" → jsTrim f.league ≠ "" →
        jsTrim f.market ≠ "" → jsTrim f.play ≠ "" →
        f.status = "FINAL" → f.result = "OPEN" →
        BetsPage.save pn eid f (some rr) =
          .error "If Status is FINAL, Result must be WIN/LOSS/PUSH/VOID/CASHOUT.") ∧
    (∀ (pn : String → Option ℚ) (eid : Option String) (f : BetsPage.SaveForm)
        (r : Option BetsPage.LeagueResolution) (p : BetsPage.SavePayload),
        BetsPage.save pn eid f r = .ok p → p.status = "FINAL" → p.result ≠ "OPEN") ∧
    (∀ (openBets : List Grade.BetRow) (ex : Grade.ExtractedGrade) (opts : Grade.GradeOpts),
        ∀ p ∈ (Grade.buildProposals openBets ex opts).proposals,
          p.after.status = "FINAL" ∧ p.after.result ≠ "OPEN") := by
  refine ⟨?_, ?_, ?_, ?_⟩
  · intro pn eid f r hstat hres
    by_cases h1 : f.date = "" ∨ jsTrim f.capper = "" ∨ jsTrim f.league = "" ∨
        jsTrim f.market = "" ∨ jsTrim f.play = ""
    · exact ⟨_, by rw [BetsPage.save.eq_def, if_pos h1]⟩
    · cases r with
      | none => exact ⟨_, by rw [BetsPage.save.eq_def, if_neg h1]⟩
      | some rr => exact ⟨_, by rw [BetsPage.save.eq_def, if_neg h1]; exact if_pos ⟨hstat, hres⟩⟩
  · intro pn eid f rr h1 h2 h3 h4 h5 hstat hres
    rw [BetsPage.save.eq_def, if_neg (by simp [h1, h2, h3, h4, h5])]
    exact if_pos ⟨hstat, hres⟩
  · intro pn eid f r p hok hstat
    rw [BetsPage.save.eq_def] at hok
    split at hok
    · simp at hok
    · split at hok
      · simp at hok
      · rename_i rr
        split at hok
        · simp at hok
        · rename_i hguard
          cases eid with
          | some e =>
              simp only [Except.ok.injEq] at hok
              subst hok
              dsimp only at hstat ⊢
              intro hres
              exact hguard ⟨hstat, hres⟩
          | none =>
              simp only [Except.ok.injEq] at hok
              subst hok
              dsimp only at hstat
              exact absurd hstat (by decide)
  · intro openBets ex opts p hp
    rcases Grade.buildProposals_proposal_cases p hp with ⟨b, _, hres, rfl⟩ | ⟨leg, b, s, hres, _, rfl⟩
    · exact ⟨rfl, hres⟩
    · exact ⟨rfl, hres⟩

/-- C2 witness: a fully filled edit form with status FINAL and result OPEN
is rejected with the user-facing guard message. -/
theorem C2_final_requires_settled_result_witness :
    BetsPage.save (fun _ => none) (some "b1") c2Form (some c2Res) =
      .error "If Status is FINAL, Result must be WIN/LOSS/PUSH/VOID/CASHOUT." :=
  C2_final_requires_settled_result.2.1 (fun _ => none) (some "b1") c2Form c2Res
    (by decide) (by decide) (by decide) (by decide) (by decide) rfl rfl

/-- C3: any single proposal with confidence below `0.75` forces the
commit gate into preview mode with zero writes and the low-confidence
blocking reason; with five proposals of which exactly one is below the
floor, commit mode issues zero writes and returns exactly one blocking
reason, the low-confidence one. -/
theorem C3_commit_gate_blocks_low_confidence :
    (∀ (commit : Bool) (openBets : List Grade.BetRow)
        (proposals : List Grade.GradeProposal) (p : Grade.GradeProposal),
        p ∈ proposals → p.confidence < 0.75 →
        (Grade.gradeGate commit openBets proposals).writes = [] ∧
        (Grade.gradeGate commit openBets proposals).mode = "preview" ∧
        Grade.lowConfMsg (proposals.filter (fun x => x.confidence < 0.75)).length
          ∈ (Grade.gradeGate commit openBets proposals).commit_blocked_reasons) ∧
    (∀ (openBets : List Grade.BetRow) (proposals : List Grade.GradeProposal),
        proposals.length = 5 →
        (proposals.filter (fun x => x.confidence < 0.75)).length = 1 →
        Grade.gradeGate true openBets proposals =
          { mode := "preview", writes := [],
            commit_blocked_reasons := [Grade.lowConfMsg 1], can_commit := false }) := by
  constructor
  · intro commit openBets proposals p hp hconf
    have hlow : p ∈ proposals.filter (fun x => x.confidence < 0.75) :=
      List.mem_filter.2 ⟨hp, by simpa using hconf⟩
    have hlne : proposals.filter (fun x => x.confidence < 0.75) ≠ [] :=
      List.ne_nil_of_mem hlow
    have hpne : proposals ≠ [] := List.ne_nil_of_mem hp
    simp [Grade.gradeGate, List.isEmpty_iff, hpne, hlne]
  · intro openBets proposals h5 h1
    have hpne : proposals ≠ [] := by
      intro h
      rw [h] at h5
      simp at h5
    have hlne : proposals.filter (fun x => x.confidence < 0.75) ≠ [] := by
      intro h
      rw [h] at h1
      simp at h1
    simp [Grade.gradeGate, List.isEmpty_iff, hpne, hlne, h1]

/-- C3 witness: five concrete proposals, one at confidence `0.74`, block
commit mode with exactly the low-confidence reason and no writes. -/
theorem C3_commit_gate_blocks_low_confidence_witness :
    Grade.gradeGate true [] c3Props =
      { mode := "preview", writes := [],
        commit_blocked_reasons := [Grade.lowConfMsg 1], can_commit := false } := by
  refine C3_commit_gate_blocks_low_confidence.2 [] c3Props (by decide) ?_
  norm_num [c3Props, c3Prop, List.filter_cons, List.filter_nil]

/-- C7: with a ticket-level settlement (normalised status FINAL and a
non-OPEN normalised result) and a non-empty candidate pool,
`buildProposals` emits exactly one proposal per candidate row, each
proposing status FINAL with the ticket result, at confidence `0.99` when a
slip reference is present and `0.7` otherwise. -/
theorem C7_ticket_settlement_proposals
    (openBets : List Grade.BetRow) (ex : Grade.ExtractedGrade) (opts : Grade.GradeOpts)
    (hstat : Grade.normalizeStatus ex.ticket.ticket_status = "FINAL")
    (hres : Grade.normalizeResult ex.ticket.ticket_result ≠ "OPEN")
    (hcand : Grade.candidatesOf openBets ex opts ≠ []) :
    (Grade.buildProposals openBets ex opts).proposals.length =
        (Grade.candidatesOf openBets ex opts).length ∧
    (∀ p ∈ (Grade.buildProposals openBets ex opts).proposals,
        p.after.status = "FINAL" ∧
        p.after.result = Grade.normalizeResult ex.ticket.ticket_result ∧
        p.confidence = (if Grade.slipRefOf ex opts ≠ "" then (0.99 : ℚ) else 0.7)) ∧
    (∀ b ∈ Grade.candidatesOf openBets ex opts,
        ∃ p ∈ (Grade.buildProposals openBets ex opts).proposals, p.bet_id = b.id) := by
  have hno : ¬(Grade.slipRefOf ex opts ≠ "" ∧
      (openBets.filter (Grade.slipRefMatches (Grade.slipRefOf ex opts))).isEmpty = true) := by
    rintro ⟨h1, h2⟩
    exact hcand (Grade.candidatesOf_nil_of_filter_nil h1 (by simpa [List.isEmpty_iff] using h2))
  have heq := Grade.buildProposals_ticket hno
    ⟨hstat, hres, by simpa [List.isEmpty_iff] using hcand⟩
  refine ⟨?_, ?_, ?_⟩
  · rw [heq]
    simp
  · intro p hp
    rw [heq] at hp
    simp only at hp
    obtain ⟨b, _, rfl⟩ := List.mem_map.1 hp
    refine ⟨rfl, rfl, rfl⟩
  · intro b hb
    rw [heq]
    exact ⟨_, List.mem_map_of_mem _ hb, rfl⟩

/-- C7 witness: one open row under slip reference `S1`, a FINAL/WIN
extraction with the same reference — one proposal, FINAL/WIN at `0.99`. -/
theorem C7_ticket_settlement_proposals_witness :
    (Grade.buildProposals [w7Bet] w7Ex w7Opts).proposals.length = 1 ∧
    ∀ p ∈ (Grade.buildProposals [w7Bet] w7Ex w7Opts).proposals,
      p.after.status = "FINAL" ∧ p.after.result = "WIN" ∧ p.confidence = 0.99 := by
  have h := C7_ticket_settlement_proposals [w7Bet] w7Ex w7Opts (by decide) (by decide) (by decide)
  refine ⟨?_, ?_⟩
  · rw [h.1]
    decide
  · intro p hp
    obtain ⟨h1, h2, h3⟩ := h.2.1 p hp
    refine ⟨h1, ?_, ?_⟩
    · rw [h2]
      decide
    · rw [h3, if_pos (by decide)]

/-- C8: when a slip reference is supplied or detected, the candidate pool
is narrowed to the open rows whose (trimmed) `slip_ref` equals it: if that
narrowing yields no row, `buildProposals` returns zero proposals and only
the no-match diagnostic; and every proposal it ever emits under a slip
reference targets a fetched open row matching that reference — no fuzzy
match against a row with a different reference is attempted. -/
theorem C8_slipref_exact_narrowing :
    (∀ (openBets : List Grade.BetRow) (ex : Grade.ExtractedGrade) (opts : Grade.GradeOpts),
        Grade.slipRefOf ex opts ≠ "" →
        openBets.filter (Grade.slipRefMatches (Grade.slipRefOf ex opts)) = [] →
        Grade.buildProposals openBets ex opts =
          { proposals := [], issues := [Grade.noMatchIssue (Grade.slipRefOf ex opts)],
            matchedCount := 0 }) ∧
    (∀ (openBets : List Grade.BetRow) (ex : Grade.ExtractedGrade) (opts : Grade.GradeOpts),
        Grade.slipRefOf ex opts ≠ "" →
        ∀ p ∈ (Grade.buildProposals openBets ex opts).proposals,
          ∃ b ∈ openBets, Grade.slipRefMatches (Grade.slipRefOf ex opts) b = true ∧
            p.bet_id = b.id) := by
  constructor
  · intro openBets ex opts h1 h2
    exact Grade.buildProposals_noMatch h1 (by simp [h2])
  · intro openBets ex opts h1 p hp
    have hcases := Grade.buildProposals_proposal_cases p hp
    have hb : ∃ b ∈ Grade.candidatesOf openBets ex opts, p.bet_id = b.id := by
      rcases hcases with ⟨b, hb, _, rfl⟩ | ⟨leg, b, s, _, hb, rfl⟩
      · exact ⟨b, hb, rfl⟩
      · exact ⟨b, hb, rfl⟩
    obtain ⟨b, hb, hid⟩ := hb
    obtain ⟨hmem, hmatch⟩ := Grade.mem_slipPool_of_ref h1 (Grade.mem_candidatesOf hb)
    exact ⟨b, hmem, hmatch, hid⟩

/-- C8 witness: a supplied slip reference `S9` matching no open row yields
zero proposals and the no-match diagnostic. -/
theorem C8_slipref_exact_narrowing_witness :
    Grade.buildProposals [w8Bet] w8Ex w8Opts =
      { proposals := [], issues := [Grade.noMatchIssue "S9"], matchedCount := 0 } := by
  have h := C8_slipref_exact_narrowing.1 [w8Bet] w8Ex w8Opts (by decide) (by decide)
  have hs : Grade.slipRefOf w8Ex w8Opts = "S9" := by decide
  rw [hs] at h
  exact h

/-- C6 (amended): in per-leg matching, every visible leg with a non-OPEN
result is scored against every candidate with the blended score
(`0.65`/`0.2`/`0.15` weights of `legScore`), and the highest-scoring
candidate is picked; a proposal is emitted iff the best score is at least
`0.35` (a score of exactly `0.35` is accepted — the source rejects only
`score < 0.35`); otherwise the unmatched-leg diagnostic is produced, and
in particular a best score of `0.30` yields the diagnostic and no
proposal. -/
theorem C6_leg_matching_threshold :
    (∀ (leg : Grade.ExtractedLeg) (cands : List Grade.BetRow) (b : Grade.BetRow) (s : ℚ),
        Grade.pickBest (Grade.legScore leg) cands = some (b, s) →
        b ∈ cands ∧ s = Grade.legScore leg b ∧ ∀ y ∈ cands, Grade.legScore leg y ≤ s) ∧
    (∀ (cands : List Grade.BetRow) (acc : List Grade.GradeProposal × List String)
        (leg : Grade.ExtractedLeg) (b : Grade.BetRow) (s : ℚ),
        Grade.legResultOf leg ≠ "OPEN" →
        Grade.pickBest (Grade.legScore leg) cands = some (b, s) → (0.35 : ℚ) ≤ s →
        Grade.legStep cands acc leg =
          (acc.1 ++ [Grade.legProposal leg (Grade.legResultOf leg) b s], acc.2)) ∧
    (∀ (cands : List Grade.BetRow) (acc : List Grade.GradeProposal × List String)
        (leg : Grade.ExtractedLeg),
        Grade.legResultOf leg ≠ "OPEN" →
        (Grade.pickBest (Grade.legScore leg) cands = none ∨
          ∃ b s, Grade.pickBest (Grade.legScore leg) cands = some (b, s) ∧ s < 0.35) →
        Grade.legStep cands acc leg = (acc.1, acc.2 ++ [Grade.unmatchedLegMsg leg])) ∧
    (∀ (openBets : List Grade.BetRow) (ex : Grade.ExtractedGrade) (opts : Grade.GradeOpts)
        (leg : Grade.ExtractedLeg) (bst : Grade.BetRow),
        Grade.slipRefOf ex opts = "" → Grade.bookHintOf ex opts = "" →
        Grade.normalizeStatus ex.ticket.ticket_status ≠ "FINAL" →
        Grade.visibleLegsOf ex = [leg] →
        Grade.legResultOf leg ≠ "OPEN" →
        Grade.pickBest (Grade.legScore leg) openBets = some (bst, 3/10) →
        Grade.buildProposals openBets ex opts =
          { proposals := [], issues := [Grade.noSlipRefIssue, Grade.unmatchedLegMsg leg],
            matchedCount := 0 }) := by
  refine ⟨?_, ?_, ?_, ?_⟩
  · intro leg cands b s h
    exact Grade.pickBest_sound (Grade.legScore leg) cands b s h
  · intro cands acc leg b s hres hpb hs
    exact Grade.legStep_emit cands acc leg b s hres hpb (not_lt.2 hs)
  · intro cands acc leg hres hcase
    rcases hcase with h | ⟨b, s, hpb, hs⟩
    · exact Grade.legStep_none cands acc leg hres h
    · exact Grade.legStep_low cands acc leg b s hres hpb hs
  · intro openBets ex opts leg bst hsr hbh hts hlegs hres hpb
    have hno : ¬(Grade.slipRefOf ex opts ≠ "" ∧
        (openBets.filter (Grade.slipRefMatches (Grade.slipRefOf ex opts))).isEmpty = true) := by
      simp [hsr]
    have htk : ¬(Grade.normalizeStatus ex.ticket.ticket_status = "FINAL" ∧
        Grade.normalizeResult ex.ticket.ticket_result ≠ "OPEN" ∧
        ¬(Grade.candidatesOf openBets ex opts).isEmpty = true) := fun h => hts h.1
    have hlne : Grade.visibleLegsOf ex ≠ [] := by rw [hlegs]; simp
    rw [Grade.buildProposals_leg hno htk hlne, hlegs,
      Grade.candidatesOf_no_hints hsr hbh, if_neg (by simp [hsr]),
      List.foldl_cons, List.foldl_nil,
      Grade.legStep_low openBets ([], [Grade.noSlipRefIssue]) leg bst (3/10) hres hpb
        (by norm_num)]
    simp

/-- C6 witness: a leg with thirteen play tokens against a candidate
sharing six of them scores exactly `0.30`; no proposal is emitted and the
unmatched-leg diagnostic is produced. -/
theorem C6_leg_matching_threshold_witness :
    Grade.buildProposals [w6Bet] w6Ex w6Opts =
      { proposals := [], issues := [Grade.noSlipRefIssue, Grade.unmatchedLegMsg w6Leg],
        matchedCount := 0 } := by
  have hs1 : Grade.overlapScore (Grade.legCombined w6Leg) (Grade.betCombined w6Bet) = 6/13 := by
    rw [Grade.overlapScore_eval _ _ 13 6 6 (by decide) (by decide) (by decide) (by decide)
      (by decide)]
    norm_num
  have hs2 : Grade.overlapScore (w6Leg.opponent.getD "") (w6Bet.opponent.getD "") = 0 :=
    Grade.overlapScore_zero_left _ _ (by decide)
  have hs3 : Grade.overlapScore (w6Leg.market.getD "") w6Bet.market = 0 :=
    Grade.overlapScore_zero_left _ _ (by decide)
  have hscore : Grade.legScore w6Leg w6Bet = 3/10 := by
    rw [Grade.legScore_eval w6Leg w6Bet _ _ _ hs1 hs2 hs3]
    norm_num
  have hpb : Grade.pickBest (Grade.legScore w6Leg) [w6Bet] = some (w6Bet, 3/10) := by
    rw [Grade.pickBest]
    simp only [Grade.pickBestAux]
    rw [hscore]
  exact C6_leg_matching_threshold.2.2.2 [w6Bet] w6Ex w6Opts w6Leg w6Bet (by decide) (by decide)
    (by decide) (by decide) (by decide) hpb

/-- C6 counterexample: a leg/candidate pair whose blended score is exactly
`0.35` (so not *exceeding* `0.35`) still has its proposal emitted — the
source rejects only scores strictly below `0.35`. -/
theorem C6_leg_threshold_counterexample :
    Grade.legScore c6Leg c6Bet = 7/20 ∧ ¬((7 : ℚ)/20 > 0.35) ∧
    (Grade.buildProposals [c6Bet] c6Ex c6Opts).proposals =
      [Grade.legProposal c6Leg "WIN" c6Bet (7/20)] := by
  have hs1 : Grade.overlapScore (Grade.legCombined c6Leg) (Grade.betCombined c6Bet) = 1/2 := by
    rw [Grade.overlapScore_eval _ _ 8 4 4 (by decide) (by decide) (by decide) (by decide)
      (by decide)]
    norm_num
  have hs2 : Grade.overlapScore (c6Leg.opponent.getD "") (c6Bet.opponent.getD "") = 1/8 := by
    rw [Grade.overlapScore_eval _ _ 8 1 1 (by decide) (by decide) (by decide) (by decide)
      (by decide)]
    norm_num
  have hs3 : Grade.overlapScore (c6Leg.market.getD "") c6Bet.market = 0 :=
    Grade.overlapScore_zero_left _ _ (by decide)
  have hscore : Grade.legScore c6Leg c6Bet = 7/20 := by
    rw [Grade.legScore_eval c6Leg c6Bet _ _ _ hs1 hs2 hs3]
    norm_num
  have hpb : Grade.pickBest (Grade.legScore c6Leg) [c6Bet] = some (c6Bet, 7/20) := by
    rw [Grade.pickBest]
    simp only [Grade.pickBestAux]
    rw [hscore]
  refine ⟨hscore, by norm_num, ?_⟩
  have hno : ¬(Grade.slipRefOf c6Ex c6Opts ≠ "" ∧
      (([c6Bet]).filter (Grade.slipRefMatches (Grade.slipRefOf c6Ex c6Opts))).isEmpty = true) := by
    decide
  have htk : ¬(Grade.normalizeStatus c6Ex.ticket.ticket_status = "FINAL" ∧
      Grade.normalizeResult c6Ex.ticket.ticket_result ≠ "OPEN" ∧
      ¬(Grade.candidatesOf [c6Bet] c6Ex c6Opts).isEmpty = true) := by
    decide
  have hlne : Grade.visibleLegsOf c6Ex ≠ [] := by decide
  have hlegs : Grade.visibleLegsOf c6Ex = [c6Leg] := by decide
  have hcand : Grade.candidatesOf [c6Bet] c6Ex c6Opts = [c6Bet] := by decide
  rw [Grade.buildProposals_leg hno htk hlne, hlegs, hcand, if_neg (by decide),
    List.foldl_cons, List.foldl_nil,
    Grade.legStep_emit [c6Bet] ([], [Grade.noSlipRefIssue]) c6Leg c6Bet (7/20) (by decide) hpb
      (by norm_num)]
  have hlr : Grade.legResultOf c6Leg = "WIN" := by decide
  rw [hlr]
  simp

/-- C9 (amended): a leg whose combined text is byte-identical to a
candidate's combined text (with a non-empty token set) has combined-text
overlap score exactly `1.0`, and that candidate is selected whenever its
blended score strictly exceeds every other candidate's; byte-identical
combined text alone does not guarantee selection, because the blended
score also weighs the opponent and market components (see the
counterexample). -/
theorem C9_identical_text_overlap :
    (∀ (leg : Grade.ExtractedLeg) (b : Grade.BetRow),
        Grade.legCombined leg = Grade.betCombined b →
        (Grade.tokenSet (Grade.legCombined leg)).card ≠ 0 →
        Grade.overlapScore (Grade.legCombined leg) (Grade.betCombined b) = 1) ∧
    (∀ (leg : Grade.ExtractedLeg) (cands : List Grade.BetRow) (x : Grade.BetRow),
        x ∈ cands →
        (∀ y ∈ cands, y ≠ x → Grade.legScore leg y < Grade.legScore leg x) →
        Grade.pickBest (Grade.legScore leg) cands = some (x, Grade.legScore leg x)) := by
  constructor
  · intro leg b heq hcard
    rw [← heq]
    simp only [Grade.overlapScore]
    rw [if_neg (by simp [hcard]), Finset.inter_self, max_self]
    exact div_self (by exact_mod_cast hcard)
  · intro leg cands x hx hmax
    exact Grade.pickBest_max (Grade.legScore leg) cands x hx hmax

/-- C9 witness: a row byte-identical to the leg's combined text scores
`1.0` on combined-text overlap and, being the strict maximum of the
blended score in its pool, is selected. -/
theorem C9_identical_text_overlap_witness :
    Grade.overlapScore (Grade.legCombined w9Leg) (Grade.betCombined w9X) = 1 ∧
    Grade.pickBest (Grade.legScore w9Leg) [w9X, w9Z] =
      some (w9X, Grade.legScore w9Leg w9X) := by
  constructor
  · exact C9_identical_text_overlap.1 w9Leg w9X (by decide) (by decide)
  · refine C9_identical_text_overlap.2 w9Leg [w9X, w9Z] w9X (by decide) ?_
    intro y hy hyx
    have hz : y = w9Z := by
      rcases List.mem_cons.1 hy with h | h
      · exact absurd h hyx
      · simpa using h
    subst hz
    have hX : Grade.legScore w9Leg w9X = 17/20 := by
      have hs1 : Grade.overlapScore (Grade.legCombined w9Leg) (Grade.betCombined w9X) = 1 :=
        C9_identical_text_overlap.1 w9Leg w9X (by decide) (by decide)
      have hs2 : Grade.overlapScore (w9Leg.opponent.getD "") (w9X.opponent.getD "") = 1 := by
        rw [Grade.overlapScore_eval _ _ 1 1 1 (by decide) (by decide) (by decide) (by decide)
          (by decide)]
        norm_num
      have hs3 : Grade.overlapScore (w9Leg.market.getD "") w9X.market = 0 :=
        Grade.overlapScore_zero_left _ _ (by decide)
      rw [Grade.legScore_eval w9Leg w9X _ _ _ hs1 hs2 hs3]
      norm_num
    have hZ : Grade.legScore w9Leg w9Z = 0 := by
      have hs1 : Grade.overlapScore (Grade.legCombined w9Leg) (Grade.betCombined w9Z) = 0 := by
        rw [Grade.overlapScore_eval _ _ 2 2 0 (by decide) (by decide) (by decide) (by decide)
          (by decide)]
        norm_num
      have hs2 : Grade.overlapScore (w9Leg.opponent.getD "") (w9Z.opponent.getD "") = 0 := by
        rw [Grade.overlapScore_eval _ _ 1 1 0 (by decide) (by decide) (by decide) (by decide)
          (by decide)]
        norm_num
      have hs3 : Grade.overlapScore (w9Leg.market.getD "") w9Z.market = 0 :=
        Grade.overlapScore_zero_left _ _ (by decide)
      rw [Grade.legScore_eval w9Leg w9Z _ _ _ hs1 hs2 hs3]
      norm_num
    rw [hX, hZ]
    norm_num

/-- C9 counterexample: the claim's selection part fails. `c9X`'s combined
text is byte-identical to the leg's (overlap `1.0`, blended score `0.85`),
but `c9Y` — same tokens with the market token in the market field —
scores `1.0` on the blend and is selected instead. -/
theorem C9_identical_text_counterexample :
    Grade.legCombined c9Leg = Grade.betCombined c9X ∧
    Grade.overlapScore (Grade.legCombined c9Leg) (Grade.betCombined c9X) = 1 ∧
    Grade.legScore c9Leg c9X = 17/20 ∧ Grade.legScore c9Leg c9Y = 1 ∧
    Grade.pickBest (Grade.legScore c9Leg) [c9X, c9Y] = some (c9Y, 1) ∧ c9Y ≠ c9X := by
  have hs1X : Grade.overlapScore (Grade.legCombined c9Leg) (Grade.betCombined c9X) = 1 := by
    rw [Grade.overlapScore_eval _ _ 3 3 3 (by decide) (by decide) (by decide) (by decide)
      (by decide)]
    norm_num
  have hX : Grade.legScore c9Leg c9X = 17/20 := by
    have hs2 : Grade.overlapScore (c9Leg.opponent.getD "") (c9X.opponent.getD "") = 1 := by
      rw [Grade.overlapScore_eval _ _ 1 1 1 (by decide) (by decide) (by decide) (by decide)
        (by decide)]
      norm_num
    have hs3 : Grade.overlapScore (c9Leg.market.getD "") c9X.market = 0 :=
      Grade.overlapScore_zero_right _ _ (by decide)
    rw [Grade.legScore_eval c9Leg c9X _ _ _ hs1X hs2 hs3]
    norm_num
  have hY : Grade.legScore c9Leg c9Y = 1 := by
    have hs1 : Grade.overlapScore (Grade.legCombined c9Leg) (Grade.betCombined c9Y) = 1 := by
      rw [Grade.overlapScore_eval _ _ 3 3 3 (by decide) (by decide) (by decide) (by decide)
        (by decide)]
      norm_num
    have hs2 : Grade.overlapScore (c9Leg.opponent.getD "") (c9Y.opponent.getD "") = 1 := by
      rw [Grade.overlapScore_eval _ _ 1 1 1 (by decide) (by decide) (by decide) (by decide)
        (by decide)]
      norm_num
    have hs3 : Grade.overlapScore (c9Leg.market.getD "") c9Y.market = 1 := by
      rw [Grade.overlapScore_eval _ _ 1 1 1 (by decide) (by decide) (by decide) (by decide)
        (by decide)]
      norm_num
    rw [Grade.legScore_eval c9Leg c9Y _ _ _ hs1 hs2 hs3]
    norm_num
  refine ⟨by decide, hs1X, hX, hY, ?_, by decide⟩
  rw [Grade.pickBest]
  simp only [Grade.pickBestAux]
  rw [hX, hY, if_pos (by norm_num)]
